import Mathlib

/-!
Verification of the CSV ingestion core of the candlestick_patterns repository
(`csv_upload/csv_processor.py`, `csv_upload/bulk_processor.py`,
`csv_upload/stock_forms.py`) against its natural-language specification.

Python strings are modelled as `List Char`.  Python library behaviour that the
source relies on is embedded explicitly:
* `str.replace`, `str.split`, `str.strip`, `str.upper` are re-implemented below
  with CPython semantics (left-to-right non-overlapping replacement, etc.);
  `strip`/`upper` are modelled over the ASCII range, which covers every string
  the processor itself produces.
* `datetime.strptime(s, "%Y%m%d").date()` on an 8-character input is modelled
  by `parseDate8` (regex `\d` is modelled as an ASCII digit; the date must be a
  real calendar date with year at least 1, as `datetime.date` enforces).
* `decimal.Decimal(s)` and `float(s)`/`int(float(s))` are modelled by explicit
  grammars below (`pyDecParse`, `pyFloatParse`); finite float values are kept
  exact (binary rounding and the 1e308 overflow-to-infinity threshold of IEEE
  doubles are not modelled), while the special values `inf`/`infinity`/`nan`
  are modelled exactly, including the `OverflowError` that `int(float("inf"))`
  raises.  Numeric-literal underscores (PEP 515) are not modelled.
* The Django ORM (`get_or_create`, `transaction.atomic`) is modelled by an
  explicit database state (`DB`) of Stock / Candlestick / CsvFile rows keyed
  exactly by the models' `unique_together` constraints.
* File IO, delimiter sniffing and `csv.DictReader` are modelled by taking a
  parsed file (header list plus one association list per row) as input, and
  ZIP extraction / `os.walk` by taking the list of discovered CSV files as
  input; these are the stdlib boundaries of the ingestion core.
-/

abbrev Str := List Char

deriving instance DecidableEq for Except

/-- Convert a Lean string literal to the `List Char` model of Python strings. -/
def str (s : String) : Str := s.toList

/-- Python `str.upper`, ASCII range. -/
def pyUpper (s : Str) : Str := s.map Char.toUpper

/-- Python whitespace characters recognised by `str.strip` (ASCII range). -/
def isPySpace (c : Char) : Bool :=
  c = ' ' || c = '\t' || c = '\n' || c = '\r' || c = '\x0b' || c = '\x0c'

/-- Python `str.strip()` with no argument: drop whitespace from both ends. -/
def pyStrip (s : Str) : Str :=
  ((s.dropWhile isPySpace).reverse.dropWhile isPySpace).reverse

/-- If `p` is a leading segment of `s`, return the remainder of `s`. -/
def stripPre : Str → Str → Option Str
  | [], s => some s
  | _ :: _, [] => none
  | p :: ps, c :: cs => if p = c then stripPre ps cs else none

theorem stripPre_length {p s r : Str} (h : stripPre p s = some r) :
    r.length ≤ s.length := by
  induction p generalizing s r with
  | nil => simp [stripPre] at h; simp [h]
  | cons p ps ih =>
    cases s with
    | nil => simp [stripPre] at h
    | cons c cs =>
      simp only [stripPre] at h
      split at h
      · exact Nat.le_succ_of_le (ih h)
      · exact absurd h (by simp)

/-- Fuel-indexed engine for Python `str.replace` with a non-empty pattern
`o :: os`: scan left to right, replacing non-overlapping occurrences.  Each
step consumes at least one character, so fuel `s.length` is always enough. -/
def pyReplaceAux (o : Char) (os new : Str) : Nat → Str → Str
  | _, [] => []
  | 0, s => s
  | fuel + 1, c :: rest =>
    if c = o then
      match stripPre os rest with
      | some r => new ++ pyReplaceAux o os new fuel r
      | none => c :: pyReplaceAux o os new fuel rest
    else c :: pyReplaceAux o os new fuel rest

/-- Python `s.replace(old, new)`.  (The source only uses non-empty `old`;
for an empty pattern we return `s` unchanged.) -/
def pyReplace (old new s : Str) : Str :=
  match old with
  | [] => s
  | o :: os => pyReplaceAux o os new s.length s

/-- Python `s.split(sep)` for a single-character separator: always returns at
least one (possibly empty) part. -/
def pySplitChar (sep : Char) : Str → List Str
  | [] => [[]]
  | c :: rest =>
    match pySplitChar sep rest with
    | [] => [[]]
    | p :: ps => if c = sep then [] :: p :: ps else (c :: p) :: ps

/-- Python `', '.join`-style list joining. -/
def joinSep (sep : Str) : List Str → Str
  | [] => []
  | [x] => x
  | x :: y :: xs => x ++ sep ++ joinSep sep (y :: xs)

/-- Decimal digits of a natural number (fuel-indexed so that it reduces in the
kernel; fuel `n + 1` is always sufficient). -/
def natStrAux : Nat → Nat → Str
  | 0, _ => []
  | f + 1, n =>
    if n < 10 then [Char.ofNat (48 + n)]
    else natStrAux f (n / 10) ++ [Char.ofNat (48 + n % 10)]

/-- Python `str(n)` for a natural number. -/
def natStr (n : Nat) : Str := natStrAux (n + 1) n

/-- Left-pad with `'0'` to width `w` (as `datetime.date.__str__` does). -/
def padZ (w : Nat) (s : Str) : Str := List.replicate (w - s.length) '0' ++ s

/-- A calendar date as produced by `datetime.date`. -/
structure PyDate where
  y : Nat
  m : Nat
  d : Nat
deriving DecidableEq

/-- Python `str(date)`: ISO `YYYY-MM-DD`. -/
def dateStr (d : PyDate) : Str :=
  padZ 4 (natStr d.y) ++ str (r"-") ++ padZ 2 (natStr d.m) ++ str (r"-") ++
    padZ 2 (natStr d.d)

/-- Value of a digit string. -/
def digitsVal (s : Str) : Nat := s.foldl (fun a c => a * 10 + (c.toNat - 48)) 0

def isLeapYear (y : Nat) : Bool :=
  y % 4 = 0 && (y % 100 ≠ 0 || y % 400 = 0)

def daysInMonth (y m : Nat) : Nat :=
  if m = 2 then (if isLeapYear y then 29 else 28)
  else if m = 4 ∨ m = 6 ∨ m = 9 ∨ m = 11 then 30
  else 31

/-- `datetime.strptime(s, "%Y%m%d").date()` on an 8-character string: succeeds
exactly when all eight characters are digits and the decomposition
`YYYY`/`MM`/`DD` is a real calendar date with year at least 1 (as enforced by
`datetime.date`; two-digit month and day are forced because `%m`/`%d` match at
most two digits and the whole string must be consumed). -/
def parseDate8 (s : Str) : Option PyDate :=
  if s.length = 8 ∧ ∀ c ∈ s, c.isDigit then
    let y := digitsVal (s.take 4)
    let m := digitsVal ((s.drop 4).take 2)
    let d := digitsVal (s.drop 6)
    if 1 ≤ y ∧ 1 ≤ m ∧ m ≤ 12 ∧ 1 ≤ d ∧ d ≤ daysInMonth y m then
      some ⟨y, m, d⟩
    else none
  else none

/-- `CSVProcessor.EXCHANGE_MAPPINGS` (csv_processor.py lines 19-53), in source
order: exchange code to association list of CSV column → database field. -/
def EXCHANGE_MAPPINGS : List (Str × List (Str × Str)) :=
  [ (str (r"BSE"),
      [ (str (r"SC_CODE"), str (r"stock_symbol")),
        (str (r"SC_NAME"), str (r"stock_name")),
        (str (r"SC_GROUP"), str (r"stock_group")),
        (str (r"SC_TYPE"), str (r"stock_type")),
        (str (r"OPEN"), str (r"open_price")),
        (str (r"HIGH"), str (r"high_price")),
        (str (r"LOW"), str (r"low_price")),
        (str (r"CLOSE"), str (r"close_price")),
        (str (r"LAST"), str (r"last_price")),
        (str (r"PREVCLOSE"), str (r"prev_close_price")),
        (str (r"NO_TRADES"), str (r"number_of_trades")),
        (str (r"NO_OF_SHRS"), str (r"number_of_shares")),
        (str (r"NET_TURNOV"), str (r"net_turnover")),
        (str (r"TDCLOINDI"), str (r"ignore")) ]),
    (str (r"NSE"),
      [ (str (r"SYMBOL"), str (r"stock_symbol")),
        (str (r"SERIES"), str (r"stock_group")),
        (str (r"OPEN"), str (r"open_price")),
        (str (r"HIGH"), str (r"high_price")),
        (str (r"LOW"), str (r"low_price")),
        (str (r"CLOSE"), str (r"close_price")),
        (str (r"LAST"), str (r"last_price")),
        (str (r"PREVCLOSE"), str (r"prev_close_price")),
        (str (r"TOTTRDQTY"), str (r"number_of_shares")),
        (str (r"TOTTRDVAL"), str (r"net_turnover")),
        (str (r"TIMESTAMP"), str (r"timestamp")),
        (str (r"TOTALTRADES"), str (r"number_of_trades")),
        (str (r"ISIN"), str (r"ignore")) ]) ]

/-- `CSVProcessor.SUPPORTED_EXCHANGES` in its initial state: the mapping keys. -/
def SUPPORTED_EXCHANGES : List Str := EXCHANGE_MAPPINGS.map Prod.fst

/-- Message wrapper of the outer `except` in `parse_filename` (line 125). -/
def wrapParseErr (filename inner : Str) : Str :=
  str (r"Error parsing filename '") ++ filename ++ str (r"': ") ++ inner

/-- `CSVProcessor.parse_filename` (csv_processor.py lines 87-125).  The
supported-exchange list is passed explicitly (it is mutable class state in the
source; `supported` is its current value).  Every `ValueError` raised inside
the body is re-raised wrapped by the outer `except` clause. -/
def parse_filename (supported : List Str) (filename : Str) :
    Except Str (PyDate × Str) :=
  let name_without_ext :=
    pyReplace (str (r".CSV")) [] (pyReplace (str (r".csv")) [] filename)
  let parts := pySplitChar '_' name_without_ext
  match parts with
  | [date_str, exchange] =>
    if date_str.length ≠ 8 then
      .error (wrapParseErr filename
        (str (r"Date part must be 8 digits (YYYYMMDD), got: ") ++ date_str))
    else
      match parseDate8 date_str with
      | none =>
        .error (wrapParseErr filename
          (str (r"Invalid date format in filename: ") ++ date_str))
      | some parsed_date =>
        if exchange = [] ∨ 10 < exchange.length then
          .error (wrapParseErr filename
            (str (r"Exchange name must be 1-10 characters, got: ") ++ exchange))
        else
          if pyUpper exchange ∈ supported then .ok (parsed_date, pyUpper exchange)
          else
            .error (wrapParseErr filename
              (str (r"Unsupported exchange '") ++ pyUpper exchange ++
                str (r"'. Supported exchanges: ") ++
                joinSep (str (r", ")) supported))
  | _ =>
    .error (wrapParseErr filename
      (str (r"Filename must follow pattern YYYYMMDD_EXCHANGE.csv, got: ") ++
        filename))

example : parse_filename SUPPORTED_EXCHANGES (str (r"20250101_BSE.csv")) =
    .ok (⟨2025, 1, 1⟩, str (r"BSE")) := by decide

example : parse_filename SUPPORTED_EXCHANGES (str (r"20250101_BSE.CSV")) =
    .ok (⟨2025, 1, 1⟩, str (r"BSE")) := by decide

example : (parse_filename SUPPORTED_EXCHANGES (str (r"20250101_BSE.Csv"))).isOk
    = false := by decide

example : parse_filename SUPPORTED_EXCHANGES (str (r"20250101_BSE.csv.csv")) =
    .ok (⟨2025, 1, 1⟩, str (r"BSE")) := by decide

example : parse_filename SUPPORTED_EXCHANGES (str (r"20250101_B.csvSE.csv")) =
    .ok (⟨2025, 1, 1⟩, str (r"BSE")) := by decide

example : (parse_filename SUPPORTED_EXCHANGES (str (r"20250230_BSE.csv"))).isOk
    = false := by decide

theorem stripPre_append (p t : Str) : stripPre p (p ++ t) = some t := by
  induction p with
  | nil => rfl
  | cons c cs ih => simp [stripPre, ih]

theorem pyReplaceAux_keep (o : Char) (os new s : Str) (h : ∀ c ∈ s, c ≠ o) :
    ∀ fuel, pyReplaceAux o os new fuel s = s := by
  induction s with
  | nil => intro fuel; cases fuel <;> rfl
  | cons c cs ih =>
    intro fuel
    cases fuel with
    | zero => rfl
    | succ f =>
      have hc : c ≠ o := h c (by simp)
      simp only [pyReplaceAux, if_neg hc]
      rw [ih (fun x hx => h x (by simp [hx]))]

theorem pyReplaceAux_strip (o : Char) (os new s : Str) (h : ∀ c ∈ s, c ≠ o) :
    ∀ fuel, s.length + 1 ≤ fuel →
      pyReplaceAux o os new fuel (s ++ o :: os) = s ++ new := by
  induction s with
  | nil =>
    intro fuel hf
    cases fuel with
    | zero => omega
    | succ f =>
      have h1 : stripPre os (os ++ []) = some [] := stripPre_append os []
      rw [List.append_nil] at h1
      simp [pyReplaceAux, h1]
  | cons c cs ih =>
    intro fuel hf
    cases fuel with
    | zero => omega
    | succ f =>
      have hc : c ≠ o := h c (by simp)
      simp only [List.cons_append, pyReplaceAux, if_neg hc, List.append_eq]
      rw [ih (fun x hx => h x (by simp [hx])) f (by simpa using Nat.lt_succ_iff.mp hf)]

theorem pyReplaceAux_keepTail (o : Char) (os new s tail : Str)
    (hs : ∀ c ∈ s, c ≠ o) (htail : ∀ c ∈ tail, c ≠ o)
    (hno : stripPre os tail = none) :
    ∀ fuel, pyReplaceAux o os new fuel (s ++ o :: tail) = s ++ o :: tail := by
  induction s with
  | nil =>
    intro fuel
    cases fuel with
    | zero => rfl
    | succ f =>
      simp only [List.nil_append, pyReplaceAux, hno]
      rw [pyReplaceAux_keep o os new tail htail f]
      simp
  | cons c cs ih =>
    intro fuel
    cases fuel with
    | zero => rfl
    | succ f =>
      have hc : c ≠ o := hs c (by simp)
      simp only [List.cons_append, pyReplaceAux, if_neg hc, List.append_eq]
      rw [ih (fun x hx => hs x (by simp [hx])) f]

theorem pySplitChar_noSep (sep : Char) (s : Str) (h : ∀ c ∈ s, c ≠ sep) :
    pySplitChar sep s = [s] := by
  induction s with
  | nil => rfl
  | cons c cs ih =>
    have hc : c ≠ sep := h c (by simp)
    simp only [pySplitChar]
    rw [ih (fun x hx => h x (by simp [hx]))]
    simp [if_neg hc]

theorem pySplitChar_two (sep : Char) (a b : Str)
    (ha : ∀ c ∈ a, c ≠ sep) (hb : ∀ c ∈ b, c ≠ sep) :
    pySplitChar sep (a ++ sep :: b) = [a, b] := by
  induction a with
  | nil =>
    simp only [List.nil_append, pySplitChar]
    rw [pySplitChar_noSep sep b hb]
    simp
  | cons c cs ih =>
    have hc : c ≠ sep := ha c (by simp)
    simp only [List.cons_append, pySplitChar, List.append_eq]
    rw [ih (fun x hx => ha x (by simp [hx]))]
    simp [if_neg hc]

theorem strip_csv_ext (s : Str) (h : ∀ c ∈ s, c ≠ '.') :
    pyReplace (str (r".CSV")) [] (pyReplace (str (r".csv")) [] (s ++ str (r".csv")))
      = s := by
  have h1 : str (r".csv") = '.' :: str (r"csv") := rfl
  have h2 : str (r".CSV") = '.' :: str (r"CSV") := rfl
  have hlen : (s ++ str (r".csv")).length = s.length + 4 := by simp [str]
  have e1 : pyReplace (str (r".csv")) [] (s ++ str (r".csv")) = s := by
    rw [h1]
    show pyReplaceAux '.' (str (r"csv")) [] (s ++ '.' :: str (r"csv")).length
      (s ++ '.' :: str (r"csv")) = s
    rw [show (s ++ '.' :: str (r"csv")).length = s.length + 4 by simp [str]]
    have := pyReplaceAux_strip '.' (str (r"csv")) [] s h (s.length + 4) (by omega)
    rw [this, List.append_nil]
  rw [e1, h2]
  show pyReplaceAux '.' (str (r"CSV")) [] s.length s = s
  exact pyReplaceAux_keep '.' (str (r"CSV")) [] s h s.length

theorem strip_CSV_ext (s : Str) (h : ∀ c ∈ s, c ≠ '.') :
    pyReplace (str (r".CSV")) [] (pyReplace (str (r".csv")) [] (s ++ str (r".CSV")))
      = s := by
  have h1 : str (r".csv") = '.' :: str (r"csv") := rfl
  have h2 : str (r".CSV") = '.' :: str (r"CSV") := rfl
  have e1 : pyReplace (str (r".csv")) [] (s ++ str (r".CSV")) = s ++ str (r".CSV") := by
    rw [h1, h2]
    show pyReplaceAux '.' (str (r"csv")) [] (s ++ '.' :: str (r"CSV")).length
      (s ++ '.' :: str (r"CSV")) = s ++ '.' :: str (r"CSV")
    exact pyReplaceAux_keepTail '.' (str (r"csv")) [] s (str (r"CSV")) h
      (by decide) (by decide) _
  rw [e1, h2]
  show pyReplaceAux '.' (str (r"CSV")) [] (s ++ '.' :: str (r"CSV")).length
    (s ++ '.' :: str (r"CSV")) = s
  rw [show (s ++ '.' :: str (r"CSV")).length = s.length + 4 by simp [str]]
  have := pyReplaceAux_strip '.' (str (r"CSV")) [] s h (s.length + 4) (by omega)
  rw [this, List.append_nil]

theorem isDigit_ne_special (c : Char) (h : c.isDigit = true) :
    c ≠ '.' ∧ c ≠ '_' := by
  constructor <;> rintro rfl <;> exact absurd h (by decide)

theorem parseDate8_length {s : Str} {d : PyDate} (h : parseDate8 s = some d) :
    s.length = 8 ∧ ∀ c ∈ s, c.isDigit = true := by
  simp only [parseDate8] at h
  split at h
  · next hc => exact hc
  · exact absurd h (by simp)

/-- Helper: a valid `YYYYMMDD_EXCH` + extension filename parses to exactly the
date and upper-cased exchange; `ext` is `".csv"` or `".CSV"`, handled by the
two stripping lemmas above. -/
theorem parse_filename_valid_aux (supported : List Str) (date_str exch : Str)
    (pd : PyDate)
    (hpd : parseDate8 date_str = some pd)
    (hne : exch ≠ []) (hlen : exch.length ≤ 10)
    (_hdot : ∀ c ∈ exch, c ≠ '.') (hund : ∀ c ∈ exch, c ≠ '_')
    (hsup : pyUpper exch ∈ supported) (ext : Str)
    (hstrip : pyReplace (str (r".CSV")) [] (pyReplace (str (r".csv")) []
      ((date_str ++ '_' :: exch) ++ ext)) = date_str ++ '_' :: exch) :
    parse_filename supported (date_str ++ '_' :: exch ++ ext) =
      .ok (pd, pyUpper exch) := by
  obtain ⟨hlen8, hdig⟩ := parseDate8_length hpd
  have hddot : ∀ c ∈ date_str, c ≠ '_' := fun c hc =>
    (isDigit_ne_special c (hdig c hc)).2
  rw [show date_str ++ '_' :: exch ++ ext = (date_str ++ '_' :: exch) ++ ext by
    simp]
  simp only [parse_filename, hstrip]
  rw [pySplitChar_two '_' date_str exch hddot hund]
  simp only [hlen8, hpd]
  have h10 : ¬(exch = [] ∨ 10 < exch.length) := by
    push_neg
    exact ⟨hne, by omega⟩
  simp [h10, hsup]

/-- Helper: no-dot segment for valid filenames. -/
theorem valid_name_nodot (date_str exch : Str)
    (hdig : ∀ c ∈ date_str, c.isDigit = true)
    (hdot : ∀ c ∈ exch, c ≠ '.') :
    ∀ c ∈ date_str ++ '_' :: exch, c ≠ '.' := by
  intro c hc
  rcases List.mem_append.mp hc with h | h
  · exact (isDigit_ne_special c (hdig c h)).1
  · rcases List.mem_cons.mp h with h | h
    · subst h; decide
    · exact hdot c h

/-- Helper: the error cases of `parse_filename`: whenever the name, after
extension stripping, fails one of the checks of lines 100-120, the function
raises (returns no result). -/
theorem parse_filename_err (supported : List Str) (filename : Str)
    (h : ∀ d e, pySplitChar '_'
        (pyReplace (str (r".CSV")) [] (pyReplace (str (r".csv")) [] filename))
        = [d, e] →
      d.length ≠ 8 ∨ parseDate8 d = none ∨ e = [] ∨ 10 < e.length ∨
        pyUpper e ∉ supported) :
    (parse_filename supported filename).isOk = false := by
  unfold parse_filename
  dsimp only
  split
  · next d e heq =>
    by_cases h8 : List.length d ≠ 8
    · simp [h8, Except.isOk, Except.toBool]
    · rcases hd : parseDate8 d with _ | pd
      · simp [h8, hd, Except.isOk, Except.toBool]
      · by_cases h10 : e = [] ∨ 10 < List.length e
        · simp [h8, hd, h10, Except.isOk, Except.toBool]
        · have hs : pyUpper e ∉ supported := by
            rcases h d e heq with hc | hc | hc | hc | hc
            · exact absurd hc h8
            · rw [hd] at hc; exact absurd hc (by simp)
            · exact absurd (Or.inl hc) h10
            · exact absurd (Or.inr hc) h10
            · exact hc
          simp [h8, hd, h10, hs, Except.isOk, Except.toBool]
  · rfl

/-- Claim C3: for every file name of shape `YYYYMMDD_EXCHANGE.csv` whose date
part is a valid 8-digit calendar date and whose upper-cased exchange is
registered, `parse_filename` returns exactly that parsed date and the
upper-cased exchange; and for every name failing one of the checks (not two
underscore-separated parts after extension stripping, date part not 8
characters or not a parseable calendar date, exchange empty or longer than 10
characters, or exchange not registered), it raises an error and returns no
(partial) result. -/
theorem C3_parse_filename_contract :
    (∀ (supported : List Str) (date_str exch : Str) (pd : PyDate),
      parseDate8 date_str = some pd → exch ≠ [] → exch.length ≤ 10 →
      (∀ c ∈ exch, c ≠ '.') → (∀ c ∈ exch, c ≠ '_') →
      pyUpper exch ∈ supported →
      parse_filename supported (date_str ++ '_' :: exch ++ str (r".csv")) =
        .ok (pd, pyUpper exch)) ∧
    (∀ (supported : List Str) (filename : Str),
      (∀ d e, pySplitChar '_'
          (pyReplace (str (r".CSV")) [] (pyReplace (str (r".csv")) [] filename))
          = [d, e] →
        d.length ≠ 8 ∨ parseDate8 d = none ∨ e = [] ∨ 10 < e.length ∨
          pyUpper e ∉ supported) →
      (parse_filename supported filename).isOk = false) := by
  constructor
  · intro supported date_str exch pd hpd hne hlen hdot hund hsup
    have hdig := (parseDate8_length hpd).2
    exact parse_filename_valid_aux supported date_str exch pd hpd hne hlen
      hdot hund hsup (str (r".csv"))
      (strip_csv_ext (date_str ++ '_' :: exch) (valid_name_nodot _ _ hdig hdot))
  · exact parse_filename_err

/-- Witness for C3: instantiates the success side at `20250101_BSE.csv` and
the failure side at the unregistered exchange `20250101_XYZ.csv`. -/
theorem C3_parse_filename_contract_witness :
    parse_filename SUPPORTED_EXCHANGES (str (r"20250101_BSE.csv")) =
      .ok (⟨2025, 1, 1⟩, str (r"BSE")) ∧
    (parse_filename SUPPORTED_EXCHANGES (str (r"20250101_XYZ.csv"))).isOk
      = false := by
  constructor
  · exact C3_parse_filename_contract.1 SUPPORTED_EXCHANGES
      (str (r"20250101")) (str (r"BSE")) ⟨2025, 1, 1⟩
      (by decide) (by decide) (by decide) (by decide) (by decide) (by decide)
  · refine C3_parse_filename_contract.2 SUPPORTED_EXCHANGES
      (str (r"20250101_XYZ.csv")) ?_
    intro d e h
    have hs : pySplitChar '_'
        (pyReplace (str (r".CSV")) [] (pyReplace (str (r".csv")) []
          (str (r"20250101_XYZ.csv")))) =
        [str (r"20250101"), str (r"XYZ")] := by decide
    rw [hs] at h
    have hd : d = str (r"20250101") := by injection h with h1 _; exact h1.symm
    have he : e = str (r"XYZ") := by
      injection h with _ h2; injection h2 with h2 _; exact h2.symm
    right; right; right; right
    rw [he]
    decide

/-- Counterexample to claim C9 as stated: the extension is NOT case-insensitive
in `parse_filename`.  Only the exact substrings `.csv` and `.CSV` are stripped
(line 95); for `20250101_BSE.Csv` the extension survives, the exchange part
becomes `BSE.Csv`, and parsing fails. -/
theorem C9_mixed_case_extension_counterexample :
    (parse_filename SUPPORTED_EXCHANGES (str (r"20250101_BSE.Csv"))).isOk
      = false := by decide

/-- Claim C9 (amended): for every valid `YYYYMMDD_EXCHANGE` name, the
extensions `.csv` (all lower case) and `.CSV` (all upper case) both parse and
give the same `(date, exchange)` result; mixed-case extensions such as `.Csv`
are rejected (see the counterexample). -/
theorem C9_extension_lower_or_upper :
    ∀ (supported : List Str) (date_str exch : Str) (pd : PyDate),
      parseDate8 date_str = some pd → exch ≠ [] → exch.length ≤ 10 →
      (∀ c ∈ exch, c ≠ '.') → (∀ c ∈ exch, c ≠ '_') →
      pyUpper exch ∈ supported →
      parse_filename supported (date_str ++ '_' :: exch ++ str (r".csv")) =
        .ok (pd, pyUpper exch) ∧
      parse_filename supported (date_str ++ '_' :: exch ++ str (r".CSV")) =
        .ok (pd, pyUpper exch) := by
  intro supported date_str exch pd hpd hne hlen hdot hund hsup
  have hdig := (parseDate8_length hpd).2
  have hnodot := valid_name_nodot date_str exch hdig hdot
  exact ⟨parse_filename_valid_aux supported date_str exch pd hpd hne hlen
      hdot hund hsup (str (r".csv")) (strip_csv_ext _ hnodot),
    parse_filename_valid_aux supported date_str exch pd hpd hne hlen
      hdot hund hsup (str (r".CSV")) (strip_CSV_ext _ hnodot)⟩

/-- Witness for C9: both `20250101_BSE.csv` and `20250101_BSE.CSV` parse to
`(2025-01-01, BSE)`. -/
theorem C9_extension_lower_or_upper_witness :
    parse_filename SUPPORTED_EXCHANGES (str (r"20250101_BSE.csv")) =
      .ok (⟨2025, 1, 1⟩, str (r"BSE")) ∧
    parse_filename SUPPORTED_EXCHANGES (str (r"20250101_BSE.CSV")) =
      .ok (⟨2025, 1, 1⟩, str (r"BSE")) :=
  C9_extension_lower_or_upper SUPPORTED_EXCHANGES
    (str (r"20250101")) (str (r"BSE")) ⟨2025, 1, 1⟩
    (by decide) (by decide) (by decide) (by decide) (by decide) (by decide)

/-- Claim C10 (implicit behaviour, confirmed): `parse_filename` strips every
occurrence of `.csv` / `.CSV` anywhere in the name, not just a trailing
extension, so names that do not match the `YYYYMMDD_EXCHANGE.csv` pattern can
still parse successfully: a doubled extension `20250101_BSE.csv.csv` and an
embedded occurrence `20250101_B.csvSE.csv` both succeed. -/
theorem C10_replace_strips_everywhere :
    parse_filename SUPPORTED_EXCHANGES (str (r"20250101_BSE.csv.csv")) =
      .ok (⟨2025, 1, 1⟩, str (r"BSE")) ∧
    parse_filename SUPPORTED_EXCHANGES (str (r"20250101_B.csvSE.csv")) =
      .ok (⟨2025, 1, 1⟩, str (r"BSE")) ∧
    parse_filename SUPPORTED_EXCHANGES (str (r"20250101_BSE.CSV.csv")) =
      .ok (⟨2025, 1, 1⟩, str (r"BSE")) := by
  refine ⟨by decide, by decide, by decide⟩

/-- A finite decimal value `n / 10 ^ s` (the exact value of a Python `Decimal`
or of a finite `float` literal; binary float rounding is not modelled). -/
structure DecVal where
  n : Int
  s : Nat
deriving DecidableEq

/-- A Python numeric parse result: finite value, signed infinity, or NaN. -/
inductive PyNum where
  | fin (v : DecVal)
  | inf (neg : Bool)
  | nan
deriving DecidableEq

/-- Consume one optional leading sign; return (isNegative, rest). -/
def parseSign : Str → Bool × Str
  | '+' :: r => (false, r)
  | '-' :: r => (true, r)
  | s => (false, s)

def spanDigits (s : Str) : Str × Str :=
  (s.takeWhile Char.isDigit, s.dropWhile Char.isDigit)

/-- Apply a decimal exponent to an unsigned mantissa/scale pair. -/
def applyExp (mant scale : Nat) (eneg : Bool) (e : Nat) : DecVal :=
  if eneg then ⟨mant, scale + e⟩
  else if e ≤ scale then ⟨mant, scale - e⟩
  else ⟨mant * 10 ^ (e - scale), 0⟩

/-- Optional exponent part `([eE][+-]?digits)?` after a mantissa; fails unless
the whole remaining input is consumed. -/
def parseExpPart (mant scale : Nat) : Str → Option DecVal
  | [] => some ⟨(mant : Int), scale⟩
  | c :: r =>
    if c = 'e' ∨ c = 'E' then
      let sr := parseSign r
      let ed := spanDigits sr.2
      if ed.1 = [] ∨ ed.2 ≠ [] then none
      else
        let v := applyExp mant scale sr.1 (digitsVal ed.1)
        some ⟨(v.n : Int), v.s⟩
    else none

/-- Unsigned numeric literal `digits [. digits] [exp]` / `. digits [exp]`;
at least one digit must be present. -/
def parseUnsignedNumeric (t : Str) : Option DecVal :=
  let ip := spanDigits t
  match ip.2 with
  | '.' :: r2 =>
    let fp := spanDigits r2
    if ip.1 = [] ∧ fp.1 = [] then none
    else parseExpPart (digitsVal ip.1 * 10 ^ fp.1.length + digitsVal fp.1)
      fp.1.length fp.2
  | _ => if ip.1 = [] then none else parseExpPart (digitsVal ip.1) 0 ip.2

/-- The string grammar accepted by `decimal.Decimal(s)` (on an already
stripped string): optional sign, then a numeric literal, `inf`/`infinity`,
`nan`/`snan` with an optional digit payload (all case-insensitive). -/
def pyDecParse (s : Str) : Option PyNum :=
  let sg := parseSign s
  let lt := sg.2.map Char.toLower
  if lt = str (r"inf") ∨ lt = str (r"infinity") then some (.inf sg.1)
  else
    match stripPre (str (r"nan")) lt with
    | some rest => if ∀ c ∈ rest, c.isDigit then some .nan else none
    | none =>
      match stripPre (str (r"snan")) lt with
      | some rest => if ∀ c ∈ rest, c.isDigit then some .nan else none
      | none => (parseUnsignedNumeric sg.2).map fun v =>
          .fin ⟨if sg.1 then -v.n else v.n, v.s⟩

/-- The string grammar accepted by `float(s)` (on an already stripped string):
optional sign, then a numeric literal, or `inf`/`infinity`/`nan`
(case-insensitive, no NaN payloads). -/
def pyFloatParse (s : Str) : Option PyNum :=
  let sg := parseSign s
  let lt := sg.2.map Char.toLower
  if lt = str (r"inf") ∨ lt = str (r"infinity") then some (.inf sg.1)
  else if lt = str (r"nan") then some .nan
  else (parseUnsignedNumeric sg.2).map fun v =>
    .fin ⟨if sg.1 then -v.n else v.n, v.s⟩

/-- `int()` applied to a finite float value: truncation toward zero. -/
def truncDecVal (v : DecVal) : Int := Int.tdiv v.n ((10 : Int) ^ v.s)

/-- `CSVProcessor.validate_decimal` (csv_processor.py lines 127-136).  The
mutable `self.warnings` list is passed and returned explicitly.  `Decimal`
raises only `InvalidOperation` on a bad string, which the source catches, so
this function is total (it never propagates an exception). -/
def validate_decimal (value field_name : Str) (warnings : List Str) :
    Option PyNum × List Str :=
  if value = [] ∨ pyStrip value = [] then (none, warnings)
  else
    match pyDecParse (pyStrip value) with
    | some v => (some v, warnings)
    | none =>
      (none, warnings ++ [str (r"Invalid decimal value for ") ++ field_name ++
        str (r": '") ++ value ++ str (r"' - skipping row")])

/-- `CSVProcessor.validate_integer` (csv_processor.py lines 138-147),
computing `int(float(value.strip()))`.  `float()` of an unparseable string and
`int()` of NaN raise `ValueError`, which the source catches (warning, `None`);
but `int()` of an infinite float raises `OverflowError`, which is NOT in the
`except (ValueError, TypeError)` clause and therefore propagates to the
caller: that is the `Except.error` branch. -/
def validate_integer (value field_name : Str) (warnings : List Str) :
    Except Str (Option Int × List Str) :=
  if value = [] ∨ pyStrip value = [] then .ok (none, warnings)
  else
    match pyFloatParse (pyStrip value) with
    | some (.fin v) => .ok (some (truncDecVal v), warnings)
    | some (.inf _) => .error (str (r"cannot convert float infinity to integer"))
    | some .nan =>
      .ok (none, warnings ++ [str (r"Invalid integer value for ") ++
        field_name ++ str (r": '") ++ value ++ str (r"' - using None")])
    | none =>
      .ok (none, warnings ++ [str (r"Invalid integer value for ") ++
        field_name ++ str (r": '") ++ value ++ str (r"' - using None")])

example : validate_decimal (str (r"2450.00")) (str (r"OPEN")) [] =
    (some (.fin ⟨245000, 2⟩), []) := by decide

example : validate_integer (str (r"1500.0")) (str (r"number_of_trades")) [] =
    .ok (some 1500, []) := by decide

example : validate_integer (str (r"1.5e3")) (str (r"number_of_trades")) [] =
    .ok (some 1500, []) := by decide

example : validate_integer (str (r"inf")) (str (r"number_of_trades")) [] =
    .error (str (r"cannot convert float infinity to integer")) := by decide

example : validate_decimal (str (r"abc")) (str (r"OPEN")) [] =
    (none, [str (r"Invalid decimal value for OPEN: 'abc' - skipping row")]) := by
  decide

/-- Counterexample to claim C7 as stated: `validate_integer` is not total.
On input `"inf"`, `float("inf")` succeeds and `int(float("inf"))` raises
`OverflowError`, which is not caught by `except (ValueError, TypeError)` and
propagates out of the validator. -/
theorem C7_validate_integer_raises_counterexample :
    validate_integer (str (r"inf")) (str (r"number_of_trades")) [] =
      .error (str (r"cannot convert float infinity to integer")) := by decide

/-- Claim C7 (amended): `validate_decimal` never raises, and `validate_integer`
never raises EXCEPT when the input parses as an infinite float (`inf` /
`infinity` in any sign and case), in which case an `OverflowError` propagates.
For both validators: empty or all-whitespace input returns `None` with no
warning; parseable input returns the typed value (integers via a float
intermediate truncated toward zero, so `"1500.0"` yields `1500`); unparseable
input (including NaN for the integer validator) appends exactly one warning
and returns `None`. -/
theorem C7_validator_totality :
    (∀ value field_name warnings, pyStrip value = [] →
      validate_decimal value field_name warnings = (none, warnings) ∧
      validate_integer value field_name warnings = .ok (none, warnings)) ∧
    (∀ value field_name warnings x, pyStrip value ≠ [] →
      pyDecParse (pyStrip value) = some x →
      validate_decimal value field_name warnings = (some x, warnings)) ∧
    (∀ value field_name warnings, pyStrip value ≠ [] →
      pyDecParse (pyStrip value) = none →
      validate_decimal value field_name warnings =
        (none, warnings ++ [str (r"Invalid decimal value for ") ++ field_name ++
          str (r": '") ++ value ++ str (r"' - skipping row")])) ∧
    (∀ value field_name warnings v, pyStrip value ≠ [] →
      pyFloatParse (pyStrip value) = some (.fin v) →
      validate_integer value field_name warnings =
        .ok (some (truncDecVal v), warnings)) ∧
    (∀ value field_name warnings, pyStrip value ≠ [] →
      (pyFloatParse (pyStrip value) = none ∨
        pyFloatParse (pyStrip value) = some .nan) →
      validate_integer value field_name warnings =
        .ok (none, warnings ++ [str (r"Invalid integer value for ") ++
          field_name ++ str (r": '") ++ value ++ str (r"' - using None")])) ∧
    (∀ value field_name warnings b, pyStrip value ≠ [] →
      pyFloatParse (pyStrip value) = some (.inf b) →
      validate_integer value field_name warnings =
        .error (str (r"cannot convert float infinity to integer"))) := by
  have hblank : ∀ value : Str, pyStrip value = [] → (value = [] ∨ pyStrip value = []) :=
    fun _ h => Or.inr h
  have hnotblank : ∀ value : Str, pyStrip value ≠ [] → ¬(value = [] ∨ pyStrip value = []) := by
    rintro value h (rfl | hc)
    · exact h rfl
    · exact h hc
  refine ⟨?_, ?_, ?_, ?_, ?_, ?_⟩
  · intro v f ws h
    constructor
    · simp only [validate_decimal, if_pos (hblank v h)]
    · simp only [validate_integer, if_pos (hblank v h)]
  · intro v f ws x h hp
    simp only [validate_decimal, if_neg (hnotblank v h), hp]
  · intro v f ws h hp
    simp only [validate_decimal, if_neg (hnotblank v h), hp]
  · intro v f ws d h hp
    simp only [validate_integer, if_neg (hnotblank v h), hp]
  · intro v f ws h hp
    rcases hp with hp | hp <;>
      simp only [validate_integer, if_neg (hnotblank v h), hp]
  · intro v f ws b h hp
    simp only [validate_integer, if_neg (hnotblank v h), hp]

/-- Witness for C7: concrete instantiations of every case of the amended
validator contract. -/
theorem C7_validator_totality_witness :
    validate_decimal (str (r"  ")) (str (r"OPEN")) [] = (none, []) ∧
    validate_integer (str (r"  ")) (str (r"number_of_trades")) [] =
      .ok (none, []) ∧
    validate_decimal (str (r"2450.00")) (str (r"OPEN")) [] =
      (some (.fin ⟨245000, 2⟩), []) ∧
    validate_decimal (str (r"abc")) (str (r"OPEN")) [] =
      (none, [str (r"Invalid decimal value for OPEN: 'abc' - skipping row")]) ∧
    validate_integer (str (r"1500.0")) (str (r"number_of_trades")) [] =
      .ok (some 1500, []) ∧
    validate_integer (str (r"x")) (str (r"number_of_trades")) [] =
      .ok (none,
        [str (r"Invalid integer value for number_of_trades: 'x' - using None")]) ∧
    validate_integer (str (r"-Infinity")) (str (r"number_of_shares")) [] =
      .error (str (r"cannot convert float infinity to integer")) := by
  refine ⟨(C7_validator_totality.1 (str (r"  ")) (str (r"OPEN")) [] (by decide)).1,
    (C7_validator_totality.1 (str (r"  ")) (str (r"number_of_trades")) []
      (by decide)).2,
    C7_validator_totality.2.1 (str (r"2450.00")) (str (r"OPEN")) []
      (.fin ⟨245000, 2⟩) (by decide) (by decide),
    ?_, ?_, ?_, ?_⟩
  · have h := C7_validator_totality.2.2.1 (str (r"abc")) (str (r"OPEN")) []
      (by decide) (by decide)
    rw [h]; decide
  · have h := C7_validator_totality.2.2.2.1 (str (r"1500.0"))
      (str (r"number_of_trades")) [] ⟨15000, 1⟩ (by decide) (by decide)
    rw [h]; decide
  · have h := C7_validator_totality.2.2.2.2.1 (str (r"x"))
      (str (r"number_of_trades")) [] (by decide) (Or.inl (by decide))
    rw [h]; decide
  · exact C7_validator_totality.2.2.2.2.2 (str (r"-Infinity"))
      (str (r"number_of_shares")) [] true (by decide) (by decide)

abbrev Row := List (Str × Str)

abbrev Mapping := List (Str × Str)

/-- A row of the `stocks` table (csv_upload/models.py), unique on
`(stock_symbol, stock_exchange)`. -/
structure Stock where
  stock_symbol : Str
  stock_name : Str
  stock_exchange : Str
  stock_group : Str
deriving DecidableEq

/-- A row of the `candlesticks` table (csv_upload/models.py), unique on
`(stock, candle_date)`.  The foreign key to `Stock` is modelled by the stock's
unique key `(stock_symbol, stock_exchange)`; `candle_date` (a midnight
timestamp in the source, `timezone.make_aware(datetime.combine(date,
datetime.min.time()))`) is modelled by its date.  The five price fields are
non-null by the "Missing required price data" guard; they carry the `Option`
of the validator unchanged. -/
structure Candlestick where
  stock_symbol : Str
  stock_exchange : Str
  candle_date : PyDate
  open_price : Option PyNum
  high_price : Option PyNum
  low_price : Option PyNum
  close_price : Option PyNum
  prev_close_price : Option PyNum
  number_of_trades : Option Int
  number_of_shares : Option Int
  net_turnover : Option PyNum
deriving DecidableEq

/-- A row of the `CsvFile` provenance table (csv_upload/models.py); the
`upload_timestamp` auto-field is not modelled. -/
structure CsvFileRec where
  filename : Str
  date : PyDate
  exchange : Str
  stocks_processed : Nat
  candlesticks_processed : Nat
deriving DecidableEq

/-- The relational store consumed by the ingestion core. -/
structure DB where
  stocks : List Stock
  candlesticks : List Candlestick
  csv_files : List CsvFileRec
deriving DecidableEq

/-- The mutable counters and lists of a `CSVProcessor` instance. -/
structure ProcState where
  processed_stocks : Nat
  processed_candlesticks : Nat
  errors : List Str
  warnings : List Str
deriving DecidableEq

/-- Python `row.get(key, default)` over a `csv.DictReader` row. -/
def rowGet (row : Row) (k dflt : Str) : Str :=
  match row.find? (fun p => p.1 == k) with
  | some p => p.2
  | none => dflt

/-- The `get_mapped_value` helper of `_process_row` (csv_processor.py lines
274-280): find the first CSV column mapped to `db_field` and return the
stripped cell value, or the empty string if no column maps to it. -/
def get_mapped_value (csv_columns : Mapping) (row : Row) (db_field : Str) : Str :=
  match csv_columns.find? (fun p => p.2 == db_field) with
  | some p => pyStrip (rowGet row p.1 [])
  | none => []

/-- The symbol-column name used in the missing-symbol error message
(csv_processor.py line 293), with fallback `SYMBOL`. -/
def symbolColumn (csv_columns : Mapping) : Str :=
  match csv_columns.find? (fun p => p.2 == str (r"stock_symbol")) with
  | some p => p.1
  | none => str (r"SYMBOL")

/-- `Stock.objects.get_or_create` lookup key. -/
def stockFind (db : DB) (sym ex : Str) : Option Stock :=
  db.stocks.find? (fun s0 => s0.stock_symbol == sym && s0.stock_exchange == ex)

/-- `Candlestick.objects.get_or_create` lookup key. -/
def candleFind (db : DB) (sym ex : Str) (cd : PyDate) : Option Candlestick :=
  db.candlesticks.find? (fun c =>
    c.stock_symbol == sym && c.stock_exchange == ex && c.candle_date == cd)

/-- The duplicate-candlestick warning of csv_processor.py line 345. -/
def dupMsg (sym : Str) (cd : PyDate) : Str :=
  str (r"Duplicate candlestick data for ") ++ sym ++ str (r" on ") ++
    dateStr cd ++ str (r" - skipped")

/-- `CSVProcessor._process_row` (csv_processor.py lines 270-345).  Result is
`(raised exception message if any, updated processor state, updated store)`;
mutations made before an exception point (validator warnings) persist, as in
the source. -/
def process_row (row : Row) (candle_date : PyDate) (exchange : Str)
    (csv_columns : Mapping) (ps : ProcState) (db : DB) :
    Option Str × ProcState × DB :=
  let stock_symbol := get_mapped_value csv_columns row (str (r"stock_symbol"))
  let stock_group := get_mapped_value csv_columns row (str (r"stock_group"))
  let stock_name := if exchange = str (r"NSE") then stock_symbol
    else get_mapped_value csv_columns row (str (r"stock_name"))
  if stock_symbol = [] then
    (some (symbolColumn csv_columns ++ str (r" (stock symbol) is required")),
      ps, db)
  else
    let r1 := validate_decimal
      (get_mapped_value csv_columns row (str (r"open_price")))
      (str (r"OPEN")) ps.warnings
    let r2 := validate_decimal
      (get_mapped_value csv_columns row (str (r"high_price")))
      (str (r"HIGH")) r1.2
    let r3 := validate_decimal
      (get_mapped_value csv_columns row (str (r"low_price")))
      (str (r"LOW")) r2.2
    let r4 := validate_decimal
      (get_mapped_value csv_columns row (str (r"close_price")))
      (str (r"CLOSE")) r3.2
    let r5 := validate_decimal
      (get_mapped_value csv_columns row (str (r"prev_close_price")))
      (str (r"PREVCLOSE")) r4.2
    let ps1 : ProcState := { ps with warnings := r5.2 }
    if r1.1 = none ∨ r2.1 = none ∨ r3.1 = none ∨ r4.1 = none ∨ r5.1 = none then
      (some (str (r"Missing required price data")), ps1, db)
    else
      match validate_integer
        (get_mapped_value csv_columns row (str (r"number_of_trades")))
        (str (r"number_of_trades")) ps1.warnings with
      | .error m => (some m, ps1, db)
      | .ok tw =>
        match validate_integer
          (get_mapped_value csv_columns row (str (r"number_of_shares")))
          (str (r"number_of_shares")) tw.2 with
        | .error m => (some m, { ps1 with warnings := tw.2 }, db)
        | .ok sw =>
          let r8 := validate_decimal
            (get_mapped_value csv_columns row (str (r"net_turnover")))
            (str (r"net_turnover")) sw.2
          let ps2 : ProcState := { ps with warnings := r8.2 }
          let stockStep : ProcState × DB :=
            match stockFind db stock_symbol exchange with
            | some _ => (ps2, db)
            | none =>
              ({ ps2 with processed_stocks := ps2.processed_stocks + 1 },
               { db with stocks := db.stocks ++
                  [{ stock_symbol := stock_symbol, stock_name := stock_name,
                     stock_exchange := exchange, stock_group := stock_group }] })
          let ps3 := stockStep.1
          let db1 := stockStep.2
          match candleFind db1 stock_symbol exchange candle_date with
          | some _ =>
            (none,
             { ps3 with warnings := ps3.warnings ++
                [dupMsg stock_symbol candle_date] }, db1)
          | none =>
            (none,
             { ps3 with processed_candlesticks :=
                ps3.processed_candlesticks + 1 },
             { db1 with candlesticks := db1.candlesticks ++
                [{ stock_symbol := stock_symbol, stock_exchange := exchange,
                   candle_date := candle_date,
                   open_price := r1.1, high_price := r2.1, low_price := r3.1,
                   close_price := r4.1, prev_close_price := r5.1,
                   number_of_trades := tw.1, number_of_shares := sw.1,
                   net_turnover := r8.1 }] })

/-- The parsed value of one of the five required price fields of a row
(state-independent: the validators' value component ignores the warning
accumulator). -/
def rowPrice (csv_columns : Mapping) (row : Row) (db_field py_field : Str) :
    Option PyNum :=
  (validate_decimal (get_mapped_value csv_columns row db_field) py_field []).1

/-- The warnings one decimal validation of a row contributes. -/
def rowPriceW (csv_columns : Mapping) (row : Row) (db_field py_field : Str) :
    List Str :=
  (validate_decimal (get_mapped_value csv_columns row db_field) py_field []).2

/-- All five required prices parse. -/
def rowPricesOk (csv_columns : Mapping) (row : Row) : Bool :=
  (rowPrice csv_columns row (str (r"open_price")) (str (r"OPEN"))).isSome &&
  (rowPrice csv_columns row (str (r"high_price")) (str (r"HIGH"))).isSome &&
  (rowPrice csv_columns row (str (r"low_price")) (str (r"LOW"))).isSome &&
  (rowPrice csv_columns row (str (r"close_price")) (str (r"CLOSE"))).isSome &&
  (rowPrice csv_columns row (str (r"prev_close_price")) (str (r"PREVCLOSE"))).isSome

/-- The integer validator of an optional trade-data field does not raise. -/
def rowIntOk (csv_columns : Mapping) (row : Row) (db_field : Str) : Bool :=
  match validate_integer (get_mapped_value csv_columns row db_field) db_field [] with
  | .ok _ => true
  | .error _ => false

/-- Value of an optional trade-data field (when the validator does not raise). -/
def rowIntVal (csv_columns : Mapping) (row : Row) (db_field : Str) : Option Int :=
  match validate_integer (get_mapped_value csv_columns row db_field) db_field [] with
  | .ok r => r.1
  | .error _ => none

/-- Warnings of an optional trade-data field's validation. -/
def rowIntW (csv_columns : Mapping) (row : Row) (db_field : Str) : List Str :=
  match validate_integer (get_mapped_value csv_columns row db_field) db_field [] with
  | .ok r => r.2
  | .error _ => []

/-- A row on which `_process_row` completes without raising: symbol present,
all five prices parse, and neither integer validator raises. -/
def rowOk (csv_columns : Mapping) (row : Row) : Bool :=
  decide (get_mapped_value csv_columns row (str (r"stock_symbol")) ≠ []) &&
  rowPricesOk csv_columns row &&
  rowIntOk csv_columns row (str (r"number_of_trades")) &&
  rowIntOk csv_columns row (str (r"number_of_shares"))

/-- A row of the claims' "bad" class: blank symbol, or a required price that
does not parse (blank or unparseable). -/
def rowBad (csv_columns : Mapping) (row : Row) : Bool :=
  decide (get_mapped_value csv_columns row (str (r"stock_symbol")) = []) ||
  !(rowPricesOk csv_columns row)

/-- Warnings contributed by the five price validations, in source order. -/
def rowDecWarns (csv_columns : Mapping) (row : Row) : List Str :=
  rowPriceW csv_columns row (str (r"open_price")) (str (r"OPEN")) ++
  rowPriceW csv_columns row (str (r"high_price")) (str (r"HIGH")) ++
  rowPriceW csv_columns row (str (r"low_price")) (str (r"LOW")) ++
  rowPriceW csv_columns row (str (r"close_price")) (str (r"CLOSE")) ++
  rowPriceW csv_columns row (str (r"prev_close_price")) (str (r"PREVCLOSE"))

/-- All warnings contributed by a fully processed (non-raising) row, before
any duplicate-candlestick warning. -/
def rowAllWarns (csv_columns : Mapping) (row : Row) : List Str :=
  rowDecWarns csv_columns row ++
  rowIntW csv_columns row (str (r"number_of_trades")) ++
  rowIntW csv_columns row (str (r"number_of_shares")) ++
  rowPriceW csv_columns row (str (r"net_turnover")) (str (r"net_turnover"))

/-- The `"Row <n>: <message>"` error strings of the row loop (line 234). -/
def rowErrStr (n : Nat) (msg : Str) : Str :=
  str (r"Row ") ++ natStr n ++ str (r": ") ++ msg

/-- The row loop of `process_csv_file` (csv_processor.py lines 217-238):
`row_number` starts at 1 and is incremented before each row (the header is row
1); an exception from `_process_row` is recorded as `"Row <n>: <message>"` and
the loop continues. -/
def runRows (candle_date : PyDate) (exchange : Str) (csv_columns : Mapping) :
    List Row → Nat → ProcState → DB → ProcState × DB
  | [], _, ps, db => (ps, db)
  | row :: rest, row_number, ps, db =>
    match process_row row candle_date exchange csv_columns ps db with
    | (some e, ps', db') =>
      runRows candle_date exchange csv_columns rest (row_number + 1)
        { ps' with errors := ps'.errors ++ [rowErrStr (row_number + 1) e] } db'
    | (none, ps', db') =>
      runRows candle_date exchange csv_columns rest (row_number + 1) ps' db'

/-- A CSV file after decoding: the header names and the `DictReader` rows
(delimiter sniffing and CSV decoding, lines 185-192, are the stdlib boundary
of the model). -/
structure CsvData where
  headers : List Str
  rows : List Row
deriving DecidableEq

/-- The result dictionary of `process_csv_file`.  On the failure path the
source dictionary has no `date`/`exchange` keys and an `error` key; absent
keys are modelled as `none`. -/
structure PResult where
  success : Bool
  stocks_processed : Nat
  candlesticks_processed : Nat
  errors : List Str
  warnings : List Str
  date : Option PyDate
  exchange : Option Str
  error : Option Str
deriving DecidableEq

/-- The missing headers `expected_headers - actual_headers` (line 200).  The
source computes a Python set difference whose iteration order is unspecified;
we keep mapping order (all claims depend only on the set). -/
def missingHeaders (csv_columns : Mapping) (headers : List Str) : List Str :=
  (csv_columns.map Prod.fst).filter (fun c => !(headers.contains c))

/-- The header-error message of csv_processor.py line 202. -/
def missingColsMsg (exchange : Str) (missing : List Str) : Str :=
  str (r"Missing required columns for ") ++ exchange ++
    str (r" exchange: ") ++ joinSep (str (r", ")) missing

/-- `EXCHANGE_MAPPINGS.get(exchange)` (line 177). -/
def lookupMapping (mappings : List (Str × Mapping)) (ex : Str) : Option Mapping :=
  match mappings.find? (fun p => p.1 == ex) with
  | some p => some p.2
  | none => none

/-- `CSVProcessor.process_csv_file` (csv_processor.py lines 149-268) over the
class state `mappings` (the current `EXCHANGE_MAPPINGS`; `SUPPORTED_EXCHANGES`
is its key list).  Counters and lists are reset on entry, so the processor
state is created fresh.  The `if not csv_columns` guard of line 178 also
fires on an empty mapping (Python falsiness).  Any `ValueError` raised before
the row loop (filename parse, mapping resolution, header validation) is caught
by the outer `except` and reported as the failure dictionary with the counters
as accumulated so far (still zero). -/
def process_csv_file (mappings : List (Str × Mapping)) (filename : Str)
    (file : CsvData) (db : DB) : PResult × DB :=
  match parse_filename (mappings.map Prod.fst) filename with
  | .error e =>
    ({ success := false, stocks_processed := 0, candlesticks_processed := 0,
       errors := [], warnings := [], date := none, exchange := none,
       error := some e }, db)
  | .ok (candle_date, exchange) =>
    match lookupMapping mappings exchange with
    | some (c0 :: crest) =>
      let csv_columns := c0 :: crest
      let missing := missingHeaders csv_columns file.headers
      if missing ≠ [] then
        ({ success := false, stocks_processed := 0,
           candlesticks_processed := 0, errors := [], warnings := [],
           date := none, exchange := none,
           error := some (missingColsMsg exchange missing) }, db)
      else
        let r := runRows candle_date exchange csv_columns file.rows 1
          ⟨0, 0, [], []⟩ db
        ({ success := true, stocks_processed := r.1.processed_stocks,
           candlesticks_processed := r.1.processed_candlesticks,
           errors := r.1.errors, warnings := r.1.warnings,
           date := some candle_date, exchange := some exchange,
           error := none }, r.2)
    | _ =>
      ({ success := false, stocks_processed := 0, candlesticks_processed := 0,
         errors := [], warnings := [], date := none, exchange := none,
         error := some (str (r"No column mapping found for exchange: ") ++
           exchange) }, db)

def emptyDB : DB := ⟨[], [], []⟩

/-- Concrete BSE header row used by witnesses. -/
def bseHeaders : List Str :=
  [str (r"SC_CODE"), str (r"SC_NAME"), str (r"SC_GROUP"), str (r"SC_TYPE"),
   str (r"OPEN"), str (r"HIGH"), str (r"LOW"), str (r"CLOSE"), str (r"LAST"),
   str (r"PREVCLOSE"), str (r"NO_TRADES"), str (r"NO_OF_SHRS"),
   str (r"NET_TURNOV"), str (r"TDCLOINDI")]

/-- Concrete valid BSE data row used by witnesses. -/
def bseRow1 : Row :=
  [(str (r"SC_CODE"), str (r"500325")), (str (r"SC_NAME"), str (r"RELIANCE")),
   (str (r"SC_GROUP"), str (r"A")), (str (r"SC_TYPE"), str (r"Q")),
   (str (r"OPEN"), str (r"2450.00")), (str (r"HIGH"), str (r"2475.50")),
   (str (r"LOW"), str (r"2440.00")), (str (r"CLOSE"), str (r"2465.75")),
   (str (r"LAST"), str (r"2465.00")), (str (r"PREVCLOSE"), str (r"2450.00")),
   (str (r"NO_TRADES"), str (r"1500")), (str (r"NO_OF_SHRS"), str (r"50000")),
   (str (r"NET_TURNOV"), str (r"123456789.50")),
   (str (r"TDCLOINDI"), str (r""))]

example :
    (process_csv_file EXCHANGE_MAPPINGS (str (r"20250101_BSE.csv"))
      ⟨bseHeaders, [bseRow1]⟩ emptyDB).1.success = true := by decide

example :
    (process_csv_file EXCHANGE_MAPPINGS (str (r"20250101_BSE.csv"))
      ⟨bseHeaders, [bseRow1]⟩ emptyDB).1.stocks_processed = 1 ∧
    (process_csv_file EXCHANGE_MAPPINGS (str (r"20250101_BSE.csv"))
      ⟨bseHeaders, [bseRow1]⟩ emptyDB).1.candlesticks_processed = 1 ∧
    (process_csv_file EXCHANGE_MAPPINGS (str (r"20250101_BSE.csv"))
      ⟨bseHeaders, [bseRow1]⟩ emptyDB).1.errors = [] := by decide

/-- Classifier for the duplicate-candlestick warnings among warning strings. -/
def isDupWarn (w : Str) : Bool :=
  (stripPre (str (r"Duplicate candlestick data")) w).isSome

theorem validate_decimal_split (csv_columns : Mapping) (row : Row)
    (db_field py_field : Str) (ws : List Str) :
    validate_decimal (get_mapped_value csv_columns row db_field) py_field ws =
      (rowPrice csv_columns row db_field py_field,
       ws ++ rowPriceW csv_columns row db_field py_field) := by
  simp only [rowPrice, rowPriceW, validate_decimal]
  split_ifs with h
  · simp
  · cases hp : pyDecParse (pyStrip (get_mapped_value csv_columns row db_field)) <;>
      simp [hp]

theorem validate_integer_error_msg {v f : Str} {ws : List Str} {m : Str}
    (h : validate_integer v f ws = .error m) :
    m = str (r"cannot convert float infinity to integer") := by
  by_cases hb : v = [] ∨ pyStrip v = []
  · simp [validate_integer, hb] at h
  · simp only [validate_integer, if_neg hb] at h
    rcases hp : pyFloatParse (pyStrip v) with _ | x
    · rw [hp] at h; simp at h
    · rw [hp] at h
      cases x with
      | fin v0 => simp at h
      | inf b => simp at h; exact h.symm
      | nan => simp at h

theorem validate_integer_cases (v f : Str) (ws : List Str) :
    validate_integer v f ws = match validate_integer v f [] with
      | .ok r => .ok (r.1, ws ++ r.2)
      | .error m => .error m := by
  simp only [validate_integer]
  by_cases hb : v = [] ∨ pyStrip v = []
  · simp [hb]
  · simp only [if_neg hb]
    rcases hp : pyFloatParse (pyStrip v) with _ | x
    · simp
    · cases x <;> simp

theorem validate_integer_split_ok (csv_columns : Mapping) (row : Row)
    (db_field : Str) (ws : List Str)
    (h : rowIntOk csv_columns row db_field = true) :
    validate_integer (get_mapped_value csv_columns row db_field) db_field ws =
      .ok (rowIntVal csv_columns row db_field,
        ws ++ rowIntW csv_columns row db_field) := by
  rw [validate_integer_cases]
  simp only [rowIntVal, rowIntW]
  rcases he : validate_integer (get_mapped_value csv_columns row db_field)
      db_field [] with m | r
  · simp only [rowIntOk, he] at h
    exact absurd h (by simp)
  · simp [he]

theorem validate_integer_split_err (csv_columns : Mapping) (row : Row)
    (db_field : Str) (ws : List Str)
    (h : rowIntOk csv_columns row db_field = false) :
    validate_integer (get_mapped_value csv_columns row db_field) db_field ws =
      .error (str (r"cannot convert float infinity to integer")) := by
  rw [validate_integer_cases]
  rcases he : validate_integer (get_mapped_value csv_columns row db_field)
      db_field [] with m | r
  · have hm := validate_integer_error_msg he
    subst hm
    simp [he]
  · simp only [rowIntOk, he] at h
    exact absurd h (by simp)

theorem isDupWarn_dupMsg (sym : Str) (cd : PyDate) :
    isDupWarn (dupMsg sym cd) = true := by
  have h1 : dupMsg sym cd = str (r"Duplicate candlestick data") ++
      (str (r" for ") ++ (sym ++ (str (r" on ") ++
        (dateStr cd ++ str (r" - skipped"))))) := by
    simp only [dupMsg]
    rw [show str (r"Duplicate candlestick data for ") =
      str (r"Duplicate candlestick data") ++ str (r" for ") from rfl]
    simp [List.append_assoc]
  rw [h1, isDupWarn, stripPre_append]
  rfl

theorem isDupWarn_invalid_dec (t : Str) :
    isDupWarn (str (r"Invalid decimal value for ") ++ t) = false := by
  rw [show str (r"Invalid decimal value for ") ++ t =
    'I' :: (str (r"nvalid decimal value for ") ++ t) from rfl]
  simp [isDupWarn, stripPre,
    show str (r"Duplicate candlestick data") =
      'D' :: str (r"uplicate candlestick data") from rfl]

theorem isDupWarn_invalid_int (t : Str) :
    isDupWarn (str (r"Invalid integer value for ") ++ t) = false := by
  rw [show str (r"Invalid integer value for ") ++ t =
    'I' :: (str (r"nvalid integer value for ") ++ t) from rfl]
  simp [isDupWarn, stripPre,
    show str (r"Duplicate candlestick data") =
      'D' :: str (r"uplicate candlestick data") from rfl]

theorem countP_isDup_vdW (v f : Str) :
    ((validate_decimal v f []).2).countP isDupWarn = 0 := by
  simp only [validate_decimal]
  split_ifs with h
  · rfl
  · cases hp : pyDecParse (pyStrip v)
    · simp [List.countP_cons, isDupWarn_invalid_dec (f ++ (str (r": '") ++
        (v ++ str (r"' - skipping row")))), List.append_assoc]
    · rfl

theorem countP_isDup_rowPriceW (csv_columns : Mapping) (row : Row)
    (db_field py_field : Str) :
    (rowPriceW csv_columns row db_field py_field).countP isDupWarn = 0 := by
  simp only [rowPriceW]
  exact countP_isDup_vdW _ _

theorem countP_isDup_rowDecWarns (csv_columns : Mapping) (row : Row) :
    (rowDecWarns csv_columns row).countP isDupWarn = 0 := by
  simp [rowDecWarns, List.countP_append, countP_isDup_rowPriceW]

theorem countP_isDup_viW (v f : Str) {r : Option Int × List Str}
    (h : validate_integer v f [] = .ok r) :
    r.2.countP isDupWarn = 0 := by
  simp only [validate_integer] at h
  split_ifs at h with hb
  · rw [← Except.ok.inj h]
    rfl
  · rcases hp : pyFloatParse (pyStrip v) with _ | x
    · rw [hp] at h
      rw [← Except.ok.inj h]
      simp [List.countP_cons, List.append_assoc, isDupWarn_invalid_int]
    · rw [hp] at h
      cases x with
      | fin v0 =>
        rw [← Except.ok.inj h]
        rfl
      | inf b => simp at h
      | nan =>
        rw [← Except.ok.inj h]
        simp [List.countP_cons, List.append_assoc, isDupWarn_invalid_int]

theorem countP_isDup_rowIntW (csv_columns : Mapping) (row : Row)
    (db_field : Str) :
    (rowIntW csv_columns row db_field).countP isDupWarn = 0 := by
  simp only [rowIntW]
  rcases he : validate_integer (get_mapped_value csv_columns row db_field)
      db_field [] with m | r
  · rfl
  · exact countP_isDup_viW _ _ he

theorem countP_isDup_rowAllWarns (csv_columns : Mapping) (row : Row) :
    (rowAllWarns csv_columns row).countP isDupWarn = 0 := by
  simp [rowAllWarns, List.countP_append, countP_isDup_rowDecWarns,
    countP_isDup_rowIntW, countP_isDup_rowPriceW]

/-- The stripped symbol cell of a row. -/
def rowSymbol (csv_columns : Mapping) (row : Row) : Str :=
  get_mapped_value csv_columns row (str (r"stock_symbol"))

/-- The `Stock` created by `_process_row` (lines 313-321) when the
`(symbol, exchange)` key is absent: `stock_name` is the symbol itself for NSE
(line 288) and the mapped `stock_name` column otherwise (line 290). -/
def rowStockNew (csv_columns : Mapping) (row : Row) (exchange : Str) : Stock :=
  { stock_symbol := rowSymbol csv_columns row,
    stock_name := if exchange = str (r"NSE") then rowSymbol csv_columns row
      else get_mapped_value csv_columns row (str (r"stock_name")),
    stock_exchange := exchange,
    stock_group := get_mapped_value csv_columns row (str (r"stock_group")) }

/-- The `Candlestick` created by `_process_row` (lines 327-340) when the
`(stock, date)` key is absent. -/
def rowCandleNew (csv_columns : Mapping) (row : Row) (exchange : Str)
    (cd : PyDate) : Candlestick :=
  { stock_symbol := rowSymbol csv_columns row,
    stock_exchange := exchange,
    candle_date := cd,
    open_price := rowPrice csv_columns row (str (r"open_price")) (str (r"OPEN")),
    high_price := rowPrice csv_columns row (str (r"high_price")) (str (r"HIGH")),
    low_price := rowPrice csv_columns row (str (r"low_price")) (str (r"LOW")),
    close_price := rowPrice csv_columns row (str (r"close_price")) (str (r"CLOSE")),
    prev_close_price := rowPrice csv_columns row (str (r"prev_close_price"))
      (str (r"PREVCLOSE")),
    number_of_trades := rowIntVal csv_columns row (str (r"number_of_trades")),
    number_of_shares := rowIntVal csv_columns row (str (r"number_of_shares")),
    net_turnover := rowPrice csv_columns row (str (r"net_turnover"))
      (str (r"net_turnover")) }

theorem process_row_blank_symbol (row : Row) (cd : PyDate) (ex : Str)
    (cols : Mapping) (ps : ProcState) (db : DB)
    (h : get_mapped_value cols row (str (r"stock_symbol")) = []) :
    process_row row cd ex cols ps db =
      (some (symbolColumn cols ++ str (r" (stock symbol) is required")),
       ps, db) := by
  simp [process_row, h]

theorem process_row_missing_price (row : Row) (cd : PyDate) (ex : Str)
    (cols : Mapping) (ps : ProcState) (db : DB)
    (hsym : get_mapped_value cols row (str (r"stock_symbol")) ≠ [])
    (hbad : rowPricesOk cols row = false) :
    process_row row cd ex cols ps db =
      (some (str (r"Missing required price data")),
       { ps with warnings := ps.warnings ++ rowDecWarns cols row }, db) := by
  have hcond : rowPrice cols row (str (r"open_price")) (str (r"OPEN")) = none ∨
      rowPrice cols row (str (r"high_price")) (str (r"HIGH")) = none ∨
      rowPrice cols row (str (r"low_price")) (str (r"LOW")) = none ∨
      rowPrice cols row (str (r"close_price")) (str (r"CLOSE")) = none ∨
      rowPrice cols row (str (r"prev_close_price")) (str (r"PREVCLOSE")) = none := by
    by_contra hc
    push_neg at hc
    obtain ⟨h1, h2, h3, h4, h5⟩ := hc
    rw [rowPricesOk] at hbad
    simp [Option.isSome_iff_ne_none, h1, h2, h3, h4, h5] at hbad
  simp [process_row, validate_decimal_split, hsym, hcond, rowDecWarns,
    List.append_assoc]

theorem rowPricesOk_not_none (cols : Mapping) (row : Row)
    (hpr : rowPricesOk cols row = true) :
    ¬(rowPrice cols row (str (r"open_price")) (str (r"OPEN")) = none ∨
      rowPrice cols row (str (r"high_price")) (str (r"HIGH")) = none ∨
      rowPrice cols row (str (r"low_price")) (str (r"LOW")) = none ∨
      rowPrice cols row (str (r"close_price")) (str (r"CLOSE")) = none ∨
      rowPrice cols row (str (r"prev_close_price")) (str (r"PREVCLOSE")) = none) := by
  simp only [rowPricesOk, Bool.and_eq_true] at hpr
  rintro (hc | hc | hc | hc | hc) <;> simp_all

theorem process_row_int_raise (row : Row) (cd : PyDate) (ex : Str)
    (cols : Mapping) (ps : ProcState) (db : DB)
    (hsym : get_mapped_value cols row (str (r"stock_symbol")) ≠ [])
    (hpr : rowPricesOk cols row = true)
    (h : rowIntOk cols row (str (r"number_of_trades")) = false ∨
      (rowIntOk cols row (str (r"number_of_trades")) = true ∧
       rowIntOk cols row (str (r"number_of_shares")) = false)) :
    ∃ w, process_row row cd ex cols ps db =
      (some (str (r"cannot convert float infinity to integer")),
       { ps with warnings := ps.warnings ++ w }, db) ∧
      w.countP isDupWarn = 0 := by
  have hno := rowPricesOk_not_none cols row hpr
  rcases h with ht | ⟨ht, hs⟩
  · refine ⟨rowDecWarns cols row, ?_, countP_isDup_rowDecWarns cols row⟩
    simp [process_row, validate_decimal_split,
      validate_integer_split_err cols row _ _ ht, hsym, hno, rowDecWarns,
      List.append_assoc]
  · refine ⟨rowDecWarns cols row ++
      rowIntW cols row (str (r"number_of_trades")), ?_, ?_⟩
    · simp [process_row, validate_decimal_split,
        validate_integer_split_ok cols row _ _ ht,
        validate_integer_split_err cols row _ _ hs, hsym, hno, rowDecWarns,
        List.append_assoc]
    · simp [List.countP_append, countP_isDup_rowDecWarns, countP_isDup_rowIntW]

theorem option_cases {α : Type} (o : Option α) : o = none ∨ ∃ a, o = some a := by
  cases o
  · exact Or.inl rfl
  · exact Or.inr ⟨_, rfl⟩

theorem process_row_ok (row : Row) (cd : PyDate) (ex : Str) (cols : Mapping)
    (ps : ProcState) (db : DB) (h : rowOk cols row = true) :
    process_row row cd ex cols ps db =
      (none,
       { processed_stocks := ps.processed_stocks +
           (if (stockFind db (rowSymbol cols row) ex).isSome then 0 else 1),
         processed_candlesticks := ps.processed_candlesticks +
           (if (candleFind db (rowSymbol cols row) ex cd).isSome then 0 else 1),
         errors := ps.errors,
         warnings := ps.warnings ++ rowAllWarns cols row ++
           (if (candleFind db (rowSymbol cols row) ex cd).isSome then
             [dupMsg (rowSymbol cols row) cd] else []) },
       { stocks := db.stocks ++
           (if (stockFind db (rowSymbol cols row) ex).isSome then []
            else [rowStockNew cols row ex]),
         candlesticks := db.candlesticks ++
           (if (candleFind db (rowSymbol cols row) ex cd).isSome then []
            else [rowCandleNew cols row ex cd]),
         csv_files := db.csv_files }) := by
  simp only [rowOk, Bool.and_eq_true, decide_eq_true_eq] at h
  obtain ⟨⟨⟨hsym, hpr⟩, ht⟩, hs⟩ := h
  have hno := rowPricesOk_not_none cols row hpr
  simp only [rowSymbol]
  rcases option_cases (stockFind db
      (get_mapped_value cols row (str (r"stock_symbol"))) ex) with hst | ⟨s0, hst⟩ <;>
    rcases option_cases (candleFind db
        (get_mapped_value cols row (str (r"stock_symbol"))) ex cd)
      with hcd | ⟨c0, hcd⟩ <;>
      simp only [stockFind, candleFind] at hst hcd <;>
      simp [process_row, validate_decimal_split,
        validate_integer_split_ok cols row _ _ ht,
        validate_integer_split_ok cols row _ _ hs, hsym, hno,
        rowStockNew, rowCandleNew, rowAllWarns, rowDecWarns, rowSymbol,
        stockFind, candleFind, hst, hcd, List.append_assoc]

theorem process_row_err (row : Row) (cd : PyDate) (ex : Str) (cols : Mapping)
    (ps : ProcState) (db : DB) (h : rowOk cols row = false) :
    ∃ m w, process_row row cd ex cols ps db =
      (some m, { ps with warnings := ps.warnings ++ w }, db) ∧
      w.countP isDupWarn = 0 := by
  by_cases hsym : get_mapped_value cols row (str (r"stock_symbol")) = []
  · refine ⟨symbolColumn cols ++ str (r" (stock symbol) is required"), [],
      ?_, rfl⟩
    rw [process_row_blank_symbol row cd ex cols ps db hsym]
    simp
  · cases hpr : rowPricesOk cols row with
    | false =>
      exact ⟨_, rowDecWarns cols row,
        process_row_missing_price row cd ex cols ps db hsym hpr,
        countP_isDup_rowDecWarns cols row⟩
    | true =>
      cases ht : rowIntOk cols row (str (r"number_of_trades")) with
      | false =>
        obtain ⟨w, hw, hc⟩ :=
          process_row_int_raise row cd ex cols ps db hsym hpr (Or.inl ht)
        exact ⟨_, w, hw, hc⟩
      | true =>
        cases hs : rowIntOk cols row (str (r"number_of_shares")) with
        | false =>
          obtain ⟨w, hw, hc⟩ :=
            process_row_int_raise row cd ex cols ps db hsym hpr (Or.inr ⟨ht, hs⟩)
          exact ⟨_, w, hw, hc⟩
        | true =>
          rw [rowOk] at h
          simp [hsym, hpr, ht, hs] at h

theorem find?_isSome_append {α : Type} (p : α → Bool) (l₁ l₂ : List α)
    (h : (l₁.find? p).isSome = true) :
    ((l₁ ++ l₂).find? p).isSome = true := by
  simp only [List.find?_isSome] at h ⊢
  obtain ⟨x, hx, hpx⟩ := h
  exact ⟨x, List.mem_append.mpr (Or.inl hx), hpx⟩

theorem find?_isSome_append_single {α : Type} (p : α → Bool) (l : List α)
    (x : α) (h : p x = true) :
    ((l ++ [x]).find? p).isSome = true := by
  simp only [List.find?_isSome]
  exact ⟨x, List.mem_append.mpr (Or.inr (by simp)), h⟩

theorem runRows_errors_length (cd : PyDate) (ex : Str) (cols : Mapping) :
    ∀ (rows : List Row) (n : Nat) (ps : ProcState) (db : DB),
    ((runRows cd ex cols rows n ps db).1.errors).length =
      ps.errors.length + rows.countP (fun r => !(rowOk cols r)) := by
  intro rows
  induction rows with
  | nil => intro n ps db; simp [runRows]
  | cons row rest ih =>
    intro n ps db
    cases hok : rowOk cols row with
    | true =>
      have hpr := process_row_ok row cd ex cols ps db hok
      simp only [runRows, hpr]
      rw [ih (n + 1) _ _]
      simp [List.countP_cons, hok]
    | false =>
      obtain ⟨m, w, hw, _⟩ := process_row_err row cd ex cols ps db hok
      simp only [runRows, hw]
      rw [ih (n + 1) _ _]
      simp [List.countP_cons, hok]
      omega

theorem runRows_errors_format (cd : PyDate) (ex : Str) (cols : Mapping) :
    ∀ (rows : List Row) (n : Nat) (ps : ProcState) (db : DB),
    ∀ e ∈ (runRows cd ex cols rows n ps db).1.errors,
      e ∈ ps.errors ∨ ∃ k m, e = rowErrStr k m := by
  intro rows
  induction rows with
  | nil =>
    intro n ps db
    simp [runRows]
    exact fun e he => Or.inl he
  | cons row rest ih =>
    intro n ps db e he
    cases hok : rowOk cols row with
    | true =>
      have hpr := process_row_ok row cd ex cols ps db hok
      simp only [runRows, hpr] at he
      have hres := ih _ _ _ e he
      exact hres
    | false =>
      obtain ⟨m, w, hw, _⟩ := process_row_err row cd ex cols ps db hok
      simp only [runRows, hw] at he
      rcases ih _ _ _ e he with hmem | hfmt
      · rcases List.mem_append.mp hmem with hmem | hmem
        · exact Or.inl hmem
        · exact Or.inr ⟨n + 1, m, by simpa using hmem⟩
      · exact Or.inr hfmt

theorem runRows_filter (cd : PyDate) (ex : Str) (cols : Mapping) :
    ∀ (rows : List Row) (n₁ n₂ : Nat) (ps₁ ps₂ : ProcState) (db : DB),
    ps₁.processed_stocks = ps₂.processed_stocks →
    ps₁.processed_candlesticks = ps₂.processed_candlesticks →
    (runRows cd ex cols rows n₁ ps₁ db).1.processed_stocks =
      (runRows cd ex cols (rows.filter (rowOk cols)) n₂ ps₂ db).1.processed_stocks ∧
    (runRows cd ex cols rows n₁ ps₁ db).1.processed_candlesticks =
      (runRows cd ex cols (rows.filter (rowOk cols)) n₂ ps₂ db).1.processed_candlesticks ∧
    (runRows cd ex cols rows n₁ ps₁ db).2 =
      (runRows cd ex cols (rows.filter (rowOk cols)) n₂ ps₂ db).2 := by
  intro rows
  induction rows with
  | nil =>
    intro n₁ n₂ ps₁ ps₂ db h1 h2
    simp [runRows, h1, h2]
  | cons row rest ih =>
    intro n₁ n₂ ps₁ ps₂ db h1 h2
    cases hok : rowOk cols row with
    | true =>
      rw [List.filter_cons_of_pos (by simpa using hok)]
      have hp1 := process_row_ok row cd ex cols ps₁ db hok
      have hp2 := process_row_ok row cd ex cols ps₂ db hok
      simp only [runRows, hp1, hp2]
      exact ih _ _ _ _ _ (by simp [h1]) (by simp [h2])
    | false =>
      rw [List.filter_cons_of_neg (by simpa using hok)]
      obtain ⟨m, w, hw, _⟩ := process_row_err row cd ex cols ps₁ db hok
      simp only [runRows, hw]
      exact ih _ _ _ _ _ (by simpa using h1) (by simpa using h2)

theorem stockFind_isSome_step (db : DB) (xs : List Stock) (cs : List Candlestick)
    (fs : List CsvFileRec) (sym ex : Str)
    (h : (stockFind db sym ex).isSome = true) :
    (stockFind ⟨db.stocks ++ xs, cs, fs⟩ sym ex).isSome = true := by
  simp only [stockFind] at h ⊢
  exact find?_isSome_append _ _ _ h

theorem candleFind_isSome_step (db : DB) (ss : List Stock) (xs : List Candlestick)
    (fs : List CsvFileRec) (sym ex : Str) (d : PyDate)
    (h : (candleFind db sym ex d).isSome = true) :
    (candleFind ⟨ss, db.candlesticks ++ xs, fs⟩ sym ex d).isSome = true := by
  simp only [candleFind] at h ⊢
  exact find?_isSome_append _ _ _ h

theorem runRows_post (cd : PyDate) (ex : Str) (cols : Mapping) :
    ∀ (rows : List Row) (n : Nat) (ps : ProcState) (db : DB),
    (∀ sym, (stockFind db sym ex).isSome = true →
      (stockFind (runRows cd ex cols rows n ps db).2 sym ex).isSome = true) ∧
    (∀ sym d, (candleFind db sym ex d).isSome = true →
      (candleFind (runRows cd ex cols rows n ps db).2 sym ex d).isSome = true) ∧
    (∀ row ∈ rows, rowOk cols row = true →
      (stockFind (runRows cd ex cols rows n ps db).2 (rowSymbol cols row) ex).isSome
        = true ∧
      (candleFind (runRows cd ex cols rows n ps db).2 (rowSymbol cols row) ex cd).isSome
        = true) := by
  intro rows
  induction rows with
  | nil =>
    intro n ps db
    refine ⟨fun sym h => by simpa [runRows] using h,
      fun sym d h => by simpa [runRows] using h, by simp⟩
  | cons row rest ih =>
    intro n ps db
    cases hok : rowOk cols row with
    | false =>
      obtain ⟨m, w, hw, _⟩ := process_row_err row cd ex cols ps db hok
      refine ⟨?_, ?_, ?_⟩
      · intro sym h
        simp only [runRows, hw]
        exact (ih _ _ _).1 sym h
      · intro sym d h
        simp only [runRows, hw]
        exact (ih _ _ _).2.1 sym d h
      · intro r hr hrok
        rcases List.mem_cons.mp hr with rfl | hr
        · rw [hok] at hrok; exact absurd hrok (by simp)
        · simp only [runRows, hw]
          exact (ih _ _ _).2.2 r hr hrok
    | true =>
      have hpr := process_row_ok row cd ex cols ps db hok
      have hstockStep : ∀ sym, (stockFind db sym ex).isSome = true →
          (stockFind ⟨db.stocks ++
              (if (stockFind db (rowSymbol cols row) ex).isSome then []
               else [rowStockNew cols row ex]),
            db.candlesticks ++
              (if (candleFind db (rowSymbol cols row) ex cd).isSome then []
               else [rowCandleNew cols row ex cd]),
            db.csv_files⟩ sym ex).isSome = true := by
        intro sym h
        exact stockFind_isSome_step db _ _ _ sym ex h
      have hcandleStep : ∀ sym d, (candleFind db sym ex d).isSome = true →
          (candleFind ⟨db.stocks ++
              (if (stockFind db (rowSymbol cols row) ex).isSome then []
               else [rowStockNew cols row ex]),
            db.candlesticks ++
              (if (candleFind db (rowSymbol cols row) ex cd).isSome then []
               else [rowCandleNew cols row ex cd]),
            db.csv_files⟩ sym ex d).isSome = true := by
        intro sym d h
        exact candleFind_isSome_step db _ _ _ sym ex d h
      have hkeyS : (stockFind ⟨db.stocks ++
              (if (stockFind db (rowSymbol cols row) ex).isSome then []
               else [rowStockNew cols row ex]),
            db.candlesticks ++
              (if (candleFind db (rowSymbol cols row) ex cd).isSome then []
               else [rowCandleNew cols row ex cd]),
            db.csv_files⟩ (rowSymbol cols row) ex).isSome = true := by
        rcases option_cases (stockFind db (rowSymbol cols row) ex) with hn | ⟨s0, hs0⟩
        · rw [if_neg (by simp [hn])]
          simp only [stockFind]
          exact find?_isSome_append_single _ _ _ (by simp [rowStockNew])
        · exact hstockStep _ (by simp [hs0])
      have hkeyC : (candleFind ⟨db.stocks ++
              (if (stockFind db (rowSymbol cols row) ex).isSome then []
               else [rowStockNew cols row ex]),
            db.candlesticks ++
              (if (candleFind db (rowSymbol cols row) ex cd).isSome then []
               else [rowCandleNew cols row ex cd]),
            db.csv_files⟩ (rowSymbol cols row) ex cd).isSome = true := by
        rcases option_cases (candleFind db (rowSymbol cols row) ex cd) with hn | ⟨c0, hc0⟩
        · simp only [candleFind] at hn ⊢
          rw [if_neg (by simp [hn])]
          exact find?_isSome_append_single _ _ _ (by simp [rowCandleNew])
        · exact hcandleStep _ _ (by simp [hc0])
      refine ⟨?_, ?_, ?_⟩
      · intro sym h
        simp only [runRows, hpr]
        exact (ih _ _ _).1 sym (hstockStep sym h)
      · intro sym d h
        simp only [runRows, hpr]
        exact (ih _ _ _).2.1 sym d (hcandleStep sym d h)
      · intro r hr hrok
        rcases List.mem_cons.mp hr with rfl | hr
        · simp only [runRows, hpr]
          exact ⟨(ih _ _ _).1 _ hkeyS, (ih _ _ _).2.1 _ _ hkeyC⟩
        · simp only [runRows, hpr]
          exact (ih _ _ _).2.2 r hr hrok

theorem runRows_replay (cd : PyDate) (ex : Str) (cols : Mapping) :
    ∀ (rows : List Row) (n : Nat) (ps : ProcState) (db : DB),
    (∀ row ∈ rows, rowOk cols row = true →
      (stockFind db (rowSymbol cols row) ex).isSome = true ∧
      (candleFind db (rowSymbol cols row) ex cd).isSome = true) →
    (runRows cd ex cols rows n ps db).2 = db ∧
    (runRows cd ex cols rows n ps db).1.processed_stocks = ps.processed_stocks ∧
    (runRows cd ex cols rows n ps db).1.processed_candlesticks =
      ps.processed_candlesticks ∧
    ∃ W, (runRows cd ex cols rows n ps db).1.warnings = ps.warnings ++ W ∧
      W.countP isDupWarn = rows.countP (rowOk cols) := by
  intro rows
  induction rows with
  | nil =>
    intro n ps db _
    exact ⟨rfl, rfl, rfl, [], by simp [runRows], by simp [runRows]⟩
  | cons row rest ih =>
    intro n ps db hkeys
    cases hok : rowOk cols row with
    | false =>
      obtain ⟨m, w, hw, hwc⟩ := process_row_err row cd ex cols ps db hok
      simp only [runRows, hw]
      obtain ⟨h1, h2, h3, W, hW, hWc⟩ :=
        ih (n + 1)
          { processed_stocks := ps.processed_stocks,
            processed_candlesticks := ps.processed_candlesticks,
            errors := ps.errors ++ [rowErrStr (n + 1) m],
            warnings := ps.warnings ++ w }
          db
          (fun r hr hrok => hkeys r (List.mem_cons_of_mem _ hr) hrok)
      refine ⟨h1, h2, h3, w ++ W, ?_, ?_⟩
      · rw [hW]
        simp [List.append_assoc]
      · simp [List.countP_append, List.countP_cons, hwc, hWc, hok]
    | true =>
      obtain ⟨hkS, hkC⟩ := hkeys row (by simp) hok
      have hpr := process_row_ok row cd ex cols ps db hok
      rw [hkS, hkC] at hpr
      simp only [eq_self_iff_true, if_true, Nat.add_zero, List.append_nil] at hpr
      simp only [runRows, hpr]
      obtain ⟨h1, h2, h3, W, hW, hWc⟩ :=
        ih (n + 1)
          { processed_stocks := ps.processed_stocks,
            processed_candlesticks := ps.processed_candlesticks,
            errors := ps.errors,
            warnings := ps.warnings ++ rowAllWarns cols row ++
              [dupMsg (rowSymbol cols row) cd] }
          { stocks := db.stocks, candlesticks := db.candlesticks,
            csv_files := db.csv_files }
          (fun r hr hrok => hkeys r (List.mem_cons_of_mem _ hr) hrok)
      refine ⟨?_, ?_, ?_,
        (rowAllWarns cols row ++ [dupMsg (rowSymbol cols row) cd]) ++ W, ?_, ?_⟩
      · rw [h1]
      · rw [h2]
      · rw [h3]
      · rw [hW]
        simp [List.append_assoc]
      · simp [List.countP_append, List.countP_cons, hWc, hok,
          countP_isDup_rowAllWarns, isDupWarn_dupMsg]

theorem process_csv_file_run (mappings : List (Str × Mapping)) (filename : Str)
    (file : CsvData) (db : DB) (d : PyDate) (ex : Str) (c0 : Str × Str)
    (crest : Mapping)
    (hparse : parse_filename (mappings.map Prod.fst) filename = .ok (d, ex))
    (hmap : lookupMapping mappings ex = some (c0 :: crest))
    (hmiss : missingHeaders (c0 :: crest) file.headers = []) :
    process_csv_file mappings filename file db =
      ({ success := true,
         stocks_processed := (runRows d ex (c0 :: crest) file.rows 1
           ⟨0, 0, [], []⟩ db).1.processed_stocks,
         candlesticks_processed := (runRows d ex (c0 :: crest) file.rows 1
           ⟨0, 0, [], []⟩ db).1.processed_candlesticks,
         errors := (runRows d ex (c0 :: crest) file.rows 1
           ⟨0, 0, [], []⟩ db).1.errors,
         warnings := (runRows d ex (c0 :: crest) file.rows 1
           ⟨0, 0, [], []⟩ db).1.warnings,
         date := some d, exchange := some ex, error := none },
       (runRows d ex (c0 :: crest) file.rows 1 ⟨0, 0, [], []⟩ db).2) := by
  simp [process_csv_file, hparse, hmap, hmiss]

theorem process_csv_file_header_fail (mappings : List (Str × Mapping))
    (filename : Str) (file : CsvData) (db : DB) (d : PyDate) (ex : Str)
    (c0 : Str × Str) (crest : Mapping)
    (hparse : parse_filename (mappings.map Prod.fst) filename = .ok (d, ex))
    (hmap : lookupMapping mappings ex = some (c0 :: crest))
    (hmiss : missingHeaders (c0 :: crest) file.headers ≠ []) :
    process_csv_file mappings filename file db =
      ({ success := false, stocks_processed := 0, candlesticks_processed := 0,
         errors := [], warnings := [], date := none, exchange := none,
         error := some (missingColsMsg ex
           (missingHeaders (c0 :: crest) file.headers)) }, db) := by
  simp [process_csv_file, hparse, hmap, hmiss]

theorem rowOk_rowBad_disjoint (cols : Mapping) (row : Row)
    (h : rowOk cols row = true) : rowBad cols row = false := by
  simp only [rowOk, Bool.and_eq_true, decide_eq_true_eq] at h
  obtain ⟨⟨⟨hsym, hpr⟩, _⟩, _⟩ := h
  simp [rowBad, hsym, hpr]

theorem rowOk_not_iff_rowBad (cols : Mapping) (row : Row)
    (h : rowOk cols row = true ∨ rowBad cols row = true) :
    (!(rowOk cols row)) = rowBad cols row := by
  cases hok : rowOk cols row with
  | true => simp [rowOk_rowBad_disjoint cols row hok]
  | false =>
    rcases h with h | h
    · rw [hok] at h; exact absurd h (by simp)
    · simp [h]

theorem countP_congr_list {α : Type} (p q : α → Bool) :
    ∀ (l : List α), (∀ a ∈ l, p a = q a) → l.countP p = l.countP q := by
  intro l
  induction l with
  | nil => intro _; rfl
  | cons a l ih =>
    intro h
    rw [List.countP_cons, List.countP_cons, h a (by simp),
      ih (fun x hx => h x (by simp [hx]))]

/-- Claim C1 (amended): for a file with a valid filename and headers whose
rows are each either fully processable (symbol present, all five prices
parse, and the optional integer fields do not parse to an infinite float:
`rowOk`) or bad in the claim's sense (blank symbol or a required price that
does not parse: `rowBad`), the result is `success: true`; the counters and
the database changes are exactly those of processing only the `rowOk` rows;
the error list has one entry per bad row, each of the form
`"Row <n>: <message>"`. -/
theorem C1_row_isolation (mappings : List (Str × Mapping)) (filename : Str)
    (file : CsvData) (db : DB) (d : PyDate) (ex : Str) (cols : Mapping)
    (hparse : parse_filename (mappings.map Prod.fst) filename = .ok (d, ex))
    (hmap : lookupMapping mappings ex = some cols) (hcne : cols ≠ [])
    (hmiss : missingHeaders cols file.headers = [])
    (hclass : ∀ row ∈ file.rows, rowOk cols row = true ∨ rowBad cols row = true) :
    (process_csv_file mappings filename file db).1.success = true ∧
    (process_csv_file mappings filename file db).1.stocks_processed =
      (runRows d ex cols (file.rows.filter (rowOk cols)) 1
        ⟨0, 0, [], []⟩ db).1.processed_stocks ∧
    (process_csv_file mappings filename file db).1.candlesticks_processed =
      (runRows d ex cols (file.rows.filter (rowOk cols)) 1
        ⟨0, 0, [], []⟩ db).1.processed_candlesticks ∧
    (process_csv_file mappings filename file db).2 =
      (runRows d ex cols (file.rows.filter (rowOk cols)) 1
        ⟨0, 0, [], []⟩ db).2 ∧
    (process_csv_file mappings filename file db).1.errors.length =
      (file.rows.filter (rowBad cols)).length ∧
    ∀ e ∈ (process_csv_file mappings filename file db).1.errors,
      ∃ k m, e = rowErrStr k m := by
  rcases hcols : cols with _ | ⟨c0, crest⟩
  · exact absurd hcols hcne
  · subst hcols
    rw [process_csv_file_run mappings filename file db d ex c0 crest
      hparse hmap hmiss]
    obtain ⟨hs, hc, hdb⟩ := runRows_filter d ex (c0 :: crest) file.rows 1 1
      ⟨0, 0, [], []⟩ ⟨0, 0, [], []⟩ db rfl rfl
    refine ⟨rfl, hs, hc, hdb, ?_, ?_⟩
    · rw [runRows_errors_length d ex (c0 :: crest) file.rows 1 ⟨0, 0, [], []⟩ db]
      rw [countP_congr_list _ _ file.rows
        (fun r hr => rowOk_not_iff_rowBad (c0 :: crest) r (hclass r hr))]
      simp [List.countP_eq_length_filter]
    · intro e he
      rcases runRows_errors_format d ex (c0 :: crest) file.rows 1
        ⟨0, 0, [], []⟩ db e he with hmem | hfmt
      · exact absurd hmem (by simp)
      · exact hfmt

/-- The BSE column mapping from the registry (for concrete statements). -/
def bseMapping : Mapping :=
  (lookupMapping EXCHANGE_MAPPINGS (str (r"BSE"))).getD []

/-- A BSE row with an unparseable OPEN price (a `rowBad` row). -/
def bseRowBadPrice : Row :=
  [(str (r"SC_CODE"), str (r"500034")), (str (r"SC_NAME"), str (r"BAJFIN")),
   (str (r"SC_GROUP"), str (r"A")), (str (r"SC_TYPE"), str (r"Q")),
   (str (r"OPEN"), str (r"abc")), (str (r"HIGH"), str (r"7050.00")),
   (str (r"LOW"), str (r"6980.00")), (str (r"CLOSE"), str (r"7025.25")),
   (str (r"LAST"), str (r"7020.00")), (str (r"PREVCLOSE"), str (r"6988.45")),
   (str (r"NO_TRADES"), str (r"1200")), (str (r"NO_OF_SHRS"), str (r"30000")),
   (str (r"NET_TURNOV"), str (r"98765432.10")),
   (str (r"TDCLOINDI"), str (r""))]

/-- A BSE row whose symbol is present and whose five prices all parse, but
whose NO_TRADES cell is `inf`. -/
def bseRowInf : Row :=
  [(str (r"SC_CODE"), str (r"500325")), (str (r"SC_NAME"), str (r"RELIANCE")),
   (str (r"SC_GROUP"), str (r"A")), (str (r"SC_TYPE"), str (r"Q")),
   (str (r"OPEN"), str (r"2450.00")), (str (r"HIGH"), str (r"2475.50")),
   (str (r"LOW"), str (r"2440.00")), (str (r"CLOSE"), str (r"2465.75")),
   (str (r"LAST"), str (r"2465.00")), (str (r"PREVCLOSE"), str (r"2450.00")),
   (str (r"NO_TRADES"), str (r"inf")), (str (r"NO_OF_SHRS"), str (r"50000")),
   (str (r"NET_TURNOV"), str (r"123456789.50")),
   (str (r"TDCLOINDI"), str (r""))]

/-- Counterexample to claim C1 as stated: this file consists of one row whose
stock symbol is present and whose five price fields all parse (so, in the
claim's classification, N = 1 and M = 0), yet the row fails — its NO_TRADES
cell `inf` makes `int(float("inf"))` raise an uncaught `OverflowError` in
`validate_integer` — so the file reports one error and zero candlesticks
instead of the claimed zero errors and one candlestick. -/
theorem C1_row_isolation_counterexample :
    rowSymbol bseMapping bseRowInf ≠ [] ∧
    rowPricesOk bseMapping bseRowInf = true ∧
    (process_csv_file EXCHANGE_MAPPINGS (str (r"20250101_BSE.csv"))
      ⟨bseHeaders, [bseRowInf]⟩ emptyDB).1.success = true ∧
    (process_csv_file EXCHANGE_MAPPINGS (str (r"20250101_BSE.csv"))
      ⟨bseHeaders, [bseRowInf]⟩ emptyDB).1.candlesticks_processed = 0 ∧
    (process_csv_file EXCHANGE_MAPPINGS (str (r"20250101_BSE.csv"))
      ⟨bseHeaders, [bseRowInf]⟩ emptyDB).1.errors =
      [str (r"Row 2: cannot convert float infinity to integer")] := by
  decide

/-- Witness for C1: a file with one valid row and one bad-price row yields
success, one stock, one candlestick and one error. -/
theorem C1_row_isolation_witness :
    (process_csv_file EXCHANGE_MAPPINGS (str (r"20250101_BSE.csv"))
      ⟨bseHeaders, [bseRow1, bseRowBadPrice]⟩ emptyDB).1.success = true ∧
    (process_csv_file EXCHANGE_MAPPINGS (str (r"20250101_BSE.csv"))
      ⟨bseHeaders, [bseRow1, bseRowBadPrice]⟩ emptyDB).1.stocks_processed = 1 ∧
    (process_csv_file EXCHANGE_MAPPINGS (str (r"20250101_BSE.csv"))
      ⟨bseHeaders, [bseRow1, bseRowBadPrice]⟩ emptyDB).1.candlesticks_processed
      = 1 ∧
    (process_csv_file EXCHANGE_MAPPINGS (str (r"20250101_BSE.csv"))
      ⟨bseHeaders, [bseRow1, bseRowBadPrice]⟩ emptyDB).1.errors.length = 1 := by
  have h := C1_row_isolation EXCHANGE_MAPPINGS (str (r"20250101_BSE.csv"))
    ⟨bseHeaders, [bseRow1, bseRowBadPrice]⟩ emptyDB ⟨2025, 1, 1⟩ (str (r"BSE"))
    bseMapping (by decide) (by decide) (by decide) (by decide) (by decide)
  refine ⟨h.1, ?_, ?_, ?_⟩
  · rw [h.2.1]; decide
  · rw [h.2.2.1]; decide
  · rw [h.2.2.2.2.1]; decide

/-- Claim C2: re-ingesting an identical file after a successful ingestion
creates zero new stocks and zero new candlesticks (the counters only count
actual creations), leaves the store exactly as the first ingestion wrote it
(no overwrite), and appends one "Duplicate candlestick data ... skipped"
warning per row that completes processing (every such row's key was written
by the first run). -/
theorem C2_idempotent_reingestion (mappings : List (Str × Mapping))
    (filename : Str) (file : CsvData) (db : DB) (d : PyDate) (ex : Str)
    (cols : Mapping)
    (hparse : parse_filename (mappings.map Prod.fst) filename = .ok (d, ex))
    (hmap : lookupMapping mappings ex = some cols) (hcne : cols ≠ [])
    (hmiss : missingHeaders cols file.headers = []) :
    (process_csv_file mappings filename file
      ((process_csv_file mappings filename file db).2)).1.success = true ∧
    (process_csv_file mappings filename file
      ((process_csv_file mappings filename file db).2)).1.stocks_processed = 0 ∧
    (process_csv_file mappings filename file
      ((process_csv_file mappings filename file db).2)).1.candlesticks_processed
      = 0 ∧
    (process_csv_file mappings filename file
      ((process_csv_file mappings filename file db).2)).2 =
      (process_csv_file mappings filename file db).2 ∧
    (process_csv_file mappings filename file
      ((process_csv_file mappings filename file db).2)).1.warnings.countP
      isDupWarn = file.rows.countP (rowOk cols) := by
  rcases hcols : cols with _ | ⟨c0, crest⟩
  · exact absurd hcols hcne
  · subst hcols
    rw [process_csv_file_run mappings filename file db d ex c0 crest
      hparse hmap hmiss]
    rw [process_csv_file_run mappings filename file _ d ex c0 crest
      hparse hmap hmiss]
    have hpost := runRows_post d ex (c0 :: crest) file.rows 1 ⟨0, 0, [], []⟩ db
    obtain ⟨h1, h2, h3, W, hW, hWc⟩ := runRows_replay d ex (c0 :: crest)
      file.rows 1 ⟨0, 0, [], []⟩
      (runRows d ex (c0 :: crest) file.rows 1 ⟨0, 0, [], []⟩ db).2
      (fun r hr hrok => hpost.2.2 r hr hrok)
    refine ⟨rfl, h2, h3, h1, ?_⟩
    rw [hW]
    simpa using hWc

/-- Witness for C2 at a concrete one-row BSE file: the second run creates
nothing, changes nothing, and emits exactly one duplicate warning. -/
theorem C2_idempotent_reingestion_witness :
    (process_csv_file EXCHANGE_MAPPINGS (str (r"20250101_BSE.csv"))
      ⟨bseHeaders, [bseRow1]⟩
      ((process_csv_file EXCHANGE_MAPPINGS (str (r"20250101_BSE.csv"))
        ⟨bseHeaders, [bseRow1]⟩ emptyDB).2)).1.stocks_processed = 0 ∧
    (process_csv_file EXCHANGE_MAPPINGS (str (r"20250101_BSE.csv"))
      ⟨bseHeaders, [bseRow1]⟩
      ((process_csv_file EXCHANGE_MAPPINGS (str (r"20250101_BSE.csv"))
        ⟨bseHeaders, [bseRow1]⟩ emptyDB).2)).1.candlesticks_processed = 0 ∧
    (process_csv_file EXCHANGE_MAPPINGS (str (r"20250101_BSE.csv"))
      ⟨bseHeaders, [bseRow1]⟩
      ((process_csv_file EXCHANGE_MAPPINGS (str (r"20250101_BSE.csv"))
        ⟨bseHeaders, [bseRow1]⟩ emptyDB).2)).2 =
      (process_csv_file EXCHANGE_MAPPINGS (str (r"20250101_BSE.csv"))
        ⟨bseHeaders, [bseRow1]⟩ emptyDB).2 ∧
    (process_csv_file EXCHANGE_MAPPINGS (str (r"20250101_BSE.csv"))
      ⟨bseHeaders, [bseRow1]⟩
      ((process_csv_file EXCHANGE_MAPPINGS (str (r"20250101_BSE.csv"))
        ⟨bseHeaders, [bseRow1]⟩ emptyDB).2)).1.warnings.countP isDupWarn = 1 := by
  have h := C2_idempotent_reingestion EXCHANGE_MAPPINGS
    (str (r"20250101_BSE.csv")) ⟨bseHeaders, [bseRow1]⟩ emptyDB
    ⟨2025, 1, 1⟩ (str (r"BSE")) bseMapping
    (by decide) (by decide) (by decide) (by decide)
  refine ⟨h.2.1, h.2.2.1, h.2.2.2.1, ?_⟩
  rw [h.2.2.2.2]
  decide

/-- Claim C4: if the file's header set is not a superset of the exchange's
mapped source columns, `process_csv_file` aborts the whole file: the result is
`success: false` with an error message listing the missing column names, both
counters are zero, the row lists are empty, and the store is unchanged (no
Stock or Candlestick row is created). -/
theorem C4_header_validation_aborts (mappings : List (Str × Mapping))
    (filename : Str) (file : CsvData) (db : DB) (d : PyDate) (ex : Str)
    (cols : Mapping)
    (hparse : parse_filename (mappings.map Prod.fst) filename = .ok (d, ex))
    (hmap : lookupMapping mappings ex = some cols) (hcne : cols ≠ [])
    (hmiss : missingHeaders cols file.headers ≠ []) :
    process_csv_file mappings filename file db =
      ({ success := false, stocks_processed := 0, candlesticks_processed := 0,
         errors := [], warnings := [], date := none, exchange := none,
         error := some (missingColsMsg ex (missingHeaders cols file.headers)) },
       db) := by
  rcases hcols : cols with _ | ⟨c0, crest⟩
  · exact absurd hcols hcne
  · subst hcols
    exact process_csv_file_header_fail mappings filename file db d ex c0 crest
      hparse hmap hmiss

/-- Witness for C4: a BSE-named file whose headers lack most required
columns fails with zero counters and an unchanged (empty) store. -/
theorem C4_header_validation_aborts_witness :
    process_csv_file EXCHANGE_MAPPINGS (str (r"20250101_BSE.csv"))
      ⟨[str (r"SC_CODE"), str (r"WRONG")], [bseRow1]⟩ emptyDB =
      ({ success := false, stocks_processed := 0, candlesticks_processed := 0,
         errors := [], warnings := [], date := none, exchange := none,
         error := some (missingColsMsg (str (r"BSE"))
           (missingHeaders bseMapping [str (r"SC_CODE"), str (r"WRONG")])) },
       emptyDB) := by
  have h := C4_header_validation_aborts EXCHANGE_MAPPINGS
    (str (r"20250101_BSE.csv")) ⟨[str (r"SC_CODE"), str (r"WRONG")], [bseRow1]⟩
    emptyDB ⟨2025, 1, 1⟩ (str (r"BSE")) bseMapping
    (by decide) (by decide) (by decide) (by decide)
  exact h

/-- The NSE column mapping from the registry (for concrete statements). -/
def nseMapping : Mapping :=
  (lookupMapping EXCHANGE_MAPPINGS (str (r"NSE"))).getD []

/-- Claim C6: under exchange NSE the created Stock's `stock_name` equals the
(stripped) value of the row's SYMBOL column — the same cell that provides
`stock_symbol` — and `stock_group` equals the row's SERIES value; under every
other exchange, `stock_name` is read from that exchange's own column mapped
to `stock_name`. -/
theorem C6_nse_name_derivation :
    (∀ (row : Row) (cd : PyDate) (ps : ProcState) (db : DB),
      rowOk nseMapping row = true →
      stockFind db (rowSymbol nseMapping row) (str (r"NSE")) = none →
      (process_row row cd (str (r"NSE")) nseMapping ps db).2.2.stocks =
        db.stocks ++
        [{ stock_symbol := pyStrip (rowGet row (str (r"SYMBOL")) []),
           stock_name := pyStrip (rowGet row (str (r"SYMBOL")) []),
           stock_exchange := str (r"NSE"),
           stock_group := pyStrip (rowGet row (str (r"SERIES")) []) }]) ∧
    (∀ (ex : Str) (cols : Mapping) (row : Row) (cd : PyDate) (ps : ProcState)
      (db : DB),
      ex ≠ str (r"NSE") →
      rowOk cols row = true →
      stockFind db (rowSymbol cols row) ex = none →
      (process_row row cd ex cols ps db).2.2.stocks =
        db.stocks ++
        [{ stock_symbol := rowSymbol cols row,
           stock_name := get_mapped_value cols row (str (r"stock_name")),
           stock_exchange := ex,
           stock_group := get_mapped_value cols row (str (r"stock_group")) }]) := by
  constructor
  · intro row cd ps db hok hstock
    rw [process_row_ok row cd (str (r"NSE")) nseMapping ps db hok]
    have hsym : rowSymbol nseMapping row =
      pyStrip (rowGet row (str (r"SYMBOL")) []) := rfl
    have hgrp : get_mapped_value nseMapping row (str (r"stock_group")) =
      pyStrip (rowGet row (str (r"SERIES")) []) := rfl
    rw [hsym] at hstock
    simp [rowStockNew, hstock, hsym, hgrp]
  · intro ex cols row cd ps db hne hok hstock
    rw [process_row_ok row cd ex cols ps db hok]
    simp [rowStockNew, hstock, hne]

/-- Witness for C6: an NSE row with SYMBOL=TCS creates a Stock named TCS with
group EQ; a BSE row takes its name from SC_NAME. -/
theorem C6_nse_name_derivation_witness :
    (process_row
      [(str (r"SYMBOL"), str (r"TCS")), (str (r"SERIES"), str (r"EQ")),
       (str (r"OPEN"), str (r"3500.00")), (str (r"HIGH"), str (r"3550.00")),
       (str (r"LOW"), str (r"3480.00")), (str (r"CLOSE"), str (r"3520.50")),
       (str (r"LAST"), str (r"3520.00")), (str (r"PREVCLOSE"), str (r"3495.00")),
       (str (r"TOTTRDQTY"), str (r"100000")),
       (str (r"TOTTRDVAL"), str (r"350000000.00")),
       (str (r"TIMESTAMP"), str (r"01-JAN-2025")),
       (str (r"TOTALTRADES"), str (r"5000")),
       (str (r"ISIN"), str (r"INE467B01029"))]
      ⟨2025, 1, 1⟩ (str (r"NSE")) nseMapping ⟨0, 0, [], []⟩ emptyDB).2.2.stocks =
      [{ stock_symbol := str (r"TCS"), stock_name := str (r"TCS"),
         stock_exchange := str (r"NSE"), stock_group := str (r"EQ") }] ∧
    (process_row bseRow1 ⟨2025, 1, 1⟩ (str (r"BSE")) bseMapping
      ⟨0, 0, [], []⟩ emptyDB).2.2.stocks =
      [{ stock_symbol := str (r"500325"), stock_name := str (r"RELIANCE"),
         stock_exchange := str (r"BSE"), stock_group := str (r"A") }] := by
  constructor
  · have h := C6_nse_name_derivation.1
      [(str (r"SYMBOL"), str (r"TCS")), (str (r"SERIES"), str (r"EQ")),
       (str (r"OPEN"), str (r"3500.00")), (str (r"HIGH"), str (r"3550.00")),
       (str (r"LOW"), str (r"3480.00")), (str (r"CLOSE"), str (r"3520.50")),
       (str (r"LAST"), str (r"3520.00")), (str (r"PREVCLOSE"), str (r"3495.00")),
       (str (r"TOTTRDQTY"), str (r"100000")),
       (str (r"TOTTRDVAL"), str (r"350000000.00")),
       (str (r"TIMESTAMP"), str (r"01-JAN-2025")),
       (str (r"TOTALTRADES"), str (r"5000")),
       (str (r"ISIN"), str (r"INE467B01029"))]
      ⟨2025, 1, 1⟩ ⟨0, 0, [], []⟩ emptyDB (by decide) (by decide)
    rw [h]
    decide
  · have h := C6_nse_name_derivation.2 (str (r"BSE")) bseMapping bseRow1
      ⟨2025, 1, 1⟩ ⟨0, 0, [], []⟩ emptyDB (by decide) (by decide) (by decide)
    rw [h]
    decide

/-- Value comparison of two finite decimals `a.n/10^a.s < b.n/10^b.s`. -/
def decLt (a b : DecVal) : Bool := decide (a.n * 10 ^ b.s < b.n * 10 ^ a.s)

/-- Python `max` over two values: keeps the current value unless the new one
is strictly greater (scan order of `max(open, low, close)`). -/
def decMax (a b : DecVal) : DecVal := if decLt a b then b else a

/-- Python `min` over two values. -/
def decMin (a b : DecVal) : DecVal := if decLt b a then b else a

/-- Python truthiness of a `Decimal`: zero is falsy. -/
def decTruthy (v : DecVal) : Bool := decide (v.n ≠ 0)

/-- The price-relationship validation of `CandlestickForm.clean`
(stock_forms.py lines 176-192): if all four prices are present AND truthy
(`all([...])` — a zero price is falsy and skips the check), reject when
`high < max(open, low, close)` or `low > min(open, high, close)`.  The
duplicate-(stock, date) check of the same method (lines 194-209) needs the
form's queryset and is outside this claim.  Form fields are finite decimals. -/
def candlestick_form_clean
    (open_price high_price low_price close_price : Option DecVal) : Option Str :=
  match open_price, high_price, low_price, close_price with
  | some o, some h, some l, some c =>
    if decTruthy o && decTruthy h && decTruthy l && decTruthy c then
      if decLt h (decMax (decMax o l) c) then
        some (str (r"High price must be greater than or equal to all other prices."))
      else if decLt (decMin (decMin o h) c) l then
        some (str (r"Low price must be less than or equal to all other prices."))
      else none
    else none
  | _, _, _, _ => none

/-- Counterexample to claim C8 as stated: the form does NOT reject exactly
the inputs with `high < max(open, low, close)`: with a zero open price
(0, 4, 5, 3) the relationship is violated (high 4 < max 5) yet
`all([...])` is falsy and the form accepts the input. -/
theorem C8_form_zero_price_counterexample :
    decLt ⟨4, 0⟩ (decMax (decMax ⟨0, 0⟩ ⟨5, 0⟩) ⟨3, 0⟩) = true ∧
    candlestick_form_clean (some ⟨0, 0⟩) (some ⟨4, 0⟩) (some ⟨5, 0⟩)
      (some ⟨3, 0⟩) = none := by decide

/-- Claim C8 (amended): the bulk-ingestion row loop never rejects or modifies
a row because of price relationships — any row that processes (symbol
present, five parseable prices, integer fields not infinite) is stored with
exactly its parsed prices, no matter how `high`/`low` relate to the others —
whereas the manual-entry form, when all four prices are present AND nonzero,
rejects exactly the inputs with `high < max(open, low, close)` or
`low > min(open, high, close)` (a zero price skips the form check, see the
counterexample). -/
theorem C8_price_relationship_asymmetry :
    (∀ (cd : PyDate) (ex : Str) (cols : Mapping) (row : Row) (ps : ProcState)
      (db : DB), rowOk cols row = true →
      (process_row row cd ex cols ps db).1 = none ∧
      (candleFind db (rowSymbol cols row) ex cd = none →
        (process_row row cd ex cols ps db).2.2.candlesticks =
          db.candlesticks ++ [rowCandleNew cols row ex cd])) ∧
    (∀ o h l c : DecVal,
      decTruthy o = true → decTruthy h = true → decTruthy l = true →
      decTruthy c = true →
      ((candlestick_form_clean (some o) (some h) (some l) (some c)).isSome = true
        ↔ (decLt h (decMax (decMax o l) c) = true ∨
           decLt (decMin (decMin o h) c) l = true))) := by
  constructor
  · intro cd ex cols row ps db hok
    rw [process_row_ok row cd ex cols ps db hok]
    refine ⟨rfl, fun hc => ?_⟩
    simp [hc]
  · intro o h l c ho hh hl hc
    simp only [candlestick_form_clean, ho, hh, hl, hc, Bool.and_self,
      if_true]
    by_cases h1 : decLt h (decMax (decMax o l) c) = true
    · simp [h1]
    · by_cases h2 : decLt (decMin (decMin o h) c) l = true
      · simp [h1, h2]
      · simp [h1, h2]

/-- A BSE row whose prices violate both candlestick relationships
(high < open and low > close would fail the form), used to witness that bulk
ingestion stores it unchanged. -/
def bseRowViol : Row :=
  [(str (r"SC_CODE"), str (r"500999")), (str (r"SC_NAME"), str (r"WEIRD")),
   (str (r"SC_GROUP"), str (r"B")), (str (r"SC_TYPE"), str (r"Q")),
   (str (r"OPEN"), str (r"2500.00")), (str (r"HIGH"), str (r"2400.00")),
   (str (r"LOW"), str (r"2450.00")), (str (r"CLOSE"), str (r"2480.00")),
   (str (r"LAST"), str (r"2480.00")), (str (r"PREVCLOSE"), str (r"2490.00")),
   (str (r"NO_TRADES"), str (r"10")), (str (r"NO_OF_SHRS"), str (r"100")),
   (str (r"NET_TURNOV"), str (r"1000.00")),
   (str (r"TDCLOINDI"), str (r""))]

/-- Witness for C8: the violating row (high 2400 < open 2500) is accepted and
stored as-is by `_process_row`, while the form rejects the same prices. -/
theorem C8_price_relationship_asymmetry_witness :
    (process_row bseRowViol ⟨2025, 1, 1⟩ (str (r"BSE")) bseMapping
      ⟨0, 0, [], []⟩ emptyDB).1 = none ∧
    (process_row bseRowViol ⟨2025, 1, 1⟩ (str (r"BSE")) bseMapping
      ⟨0, 0, [], []⟩ emptyDB).2.2.candlesticks =
      [rowCandleNew bseMapping bseRowViol (str (r"BSE")) ⟨2025, 1, 1⟩] ∧
    (candlestick_form_clean (some ⟨25000000, 4⟩) (some ⟨24000000, 4⟩)
      (some ⟨24500000, 4⟩) (some ⟨24800000, 4⟩)).isSome = true := by
  have h := C8_price_relationship_asymmetry.1 ⟨2025, 1, 1⟩ (str (r"BSE"))
    bseMapping bseRowViol ⟨0, 0, [], []⟩ emptyDB (by decide)
  refine ⟨h.1, ?_, ?_⟩
  · rw [h.2 (by decide)]
    decide
  · exact (C8_price_relationship_asymmetry.2 ⟨25000000, 4⟩ ⟨24000000, 4⟩
      ⟨24500000, 4⟩ ⟨24800000, 4⟩ (by decide) (by decide) (by decide)
      (by decide)).mpr (Or.inl (by decide))

/-- One entry of `processed_files` (bulk_processor.py lines 198-205). -/
structure ProcessedFileRec where
  filename : Str
  date : Option PyDate
  exchange : Option Str
  stocks_processed : Nat
  candlesticks_processed : Nat
  warnings : List Str
deriving DecidableEq

/-- One entry of `failed_files` (bulk_processor.py lines 224-229). -/
structure FailedFileRec where
  filename : Str
  error : Str
  stocks_processed : Nat
  candlesticks_processed : Nat
deriving DecidableEq

/-- The mutable state of a `BulkCSVProcessor` instance. -/
structure BulkState where
  processed_files : List ProcessedFileRec
  failed_files : List FailedFileRec
  total_stocks : Nat
  total_candlesticks : Nat
  total_files_processed : Nat
  warnings : List Str
  errors : List Str
deriving DecidableEq

/-- The aggregate dictionary returned by `process_zip_file`.  The
zero-CSV failure dictionary (lines 84-94) has no `total_files_failed` key,
modelled as `none`. -/
structure BulkResult where
  success : Bool
  error : Option Str
  processed_files : List ProcessedFileRec
  failed_files : List FailedFileRec
  total_files_processed : Nat
  total_files_failed : Option Nat
  total_stocks : Nat
  total_candlesticks : Nat
  warnings : List Str
  errors : List Str
deriving DecidableEq

/-- `f"{filename}: {msg}"` tagging of per-file warnings/errors. -/
def tagMsg (filename msg : Str) : Str := filename ++ str (r": ") ++ msg

/-- `BulkCSVProcessor._process_single_file` (bulk_processor.py lines 159-247):
run the engine on one file and fold its outcome into the bulk state.  On
success a `CsvFile` provenance record is stored and the FIRST THREE warnings
are copied (tagged with the filename) into the bulk warning list (line 210,
`result['warnings'][:3]`); on failure the file is recorded under
`failed_files` and the tagged error plus the first three row errors are
appended (lines 224-239).  In this model the engine never throws, so the
re-raise path (line 247) is dead. -/
def process_single_file (mappings : List (Str × Mapping)) (filename : Str)
    (file : CsvData) (st : BulkState) (db : DB) : BulkState × DB :=
  let r := process_csv_file mappings filename file db
  if r.1.success then
    ({ st with
        processed_files := st.processed_files ++
          [{ filename := filename, date := r.1.date, exchange := r.1.exchange,
             stocks_processed := r.1.stocks_processed,
             candlesticks_processed := r.1.candlesticks_processed,
             warnings := r.1.warnings }],
        total_stocks := st.total_stocks + r.1.stocks_processed,
        total_candlesticks := st.total_candlesticks + r.1.candlesticks_processed,
        total_files_processed := st.total_files_processed + 1,
        warnings := st.warnings ++ (r.1.warnings.take 3).map (tagMsg filename) },
     { r.2 with csv_files := r.2.csv_files ++
        [{ filename := filename, date := (r.1.date).getD ⟨1, 1, 1⟩,
           exchange := (r.1.exchange).getD [],
           stocks_processed := r.1.stocks_processed,
           candlesticks_processed := r.1.candlesticks_processed }] })
  else
    ({ st with
        failed_files := st.failed_files ++
          [{ filename := filename,
             error := (r.1.error).getD (str (r"Unknown error")),
             stocks_processed := r.1.stocks_processed,
             candlesticks_processed := r.1.candlesticks_processed }],
        errors := st.errors ++
          [tagMsg filename ((r.1.error).getD (str (r"Unknown error")))] ++
          (r.1.errors.take 3).map (tagMsg filename) },
     r.2)

/-- The sequential per-file loop of `process_zip_file` (lines 101-120). -/
def processFiles (mappings : List (Str × Mapping)) :
    List (Str × CsvData) → BulkState → DB → BulkState × DB
  | [], st, db => (st, db)
  | (fn, f) :: rest, st, db =>
    let r := process_single_file mappings fn f st db
    processFiles mappings rest r.1 r.2

/-- `BulkCSVProcessor.process_zip_file` (bulk_processor.py lines 27-157) over
the list of CSV members discovered in the archive (ZIP extraction, the
recursive `os.walk` discovery and the hidden-file filter of lines 55-78 are
the stdlib boundary of the model; `files` is the discovered list in walk
order).  With zero CSVs the failure dictionary of lines 84-94 is returned;
otherwise every file is processed and the aggregate of lines 130-140 is
returned with `success: true` unconditionally. -/
def process_zip_file (mappings : List (Str × Mapping)) (zip_filename : Str)
    (files : List (Str × CsvData)) (db : DB) : BulkResult × DB :=
  if files = [] then
    ({ success := false,
       error := some (str (r"No CSV files found in ZIP archive: ") ++
         zip_filename),
       processed_files := [], failed_files := [], total_files_processed := 0,
       total_files_failed := none, total_stocks := 0, total_candlesticks := 0,
       warnings := [],
       errors := [str (r"No CSV files found in ZIP archive")] }, db)
  else
    let r := processFiles mappings files ⟨[], [], 0, 0, 0, [], []⟩ db
    ({ success := true, error := none,
       processed_files := r.1.processed_files,
       failed_files := r.1.failed_files,
       total_files_processed := r.1.total_files_processed,
       total_files_failed := some r.1.failed_files.length,
       total_stocks := r.1.total_stocks,
       total_candlesticks := r.1.total_candlesticks,
       warnings := r.1.warnings, errors := r.1.errors }, r.2)

theorem processFiles_account (mappings : List (Str × Mapping)) :
    ∀ (files : List (Str × CsvData)) (st : BulkState) (db : DB),
    (processFiles mappings files st db).1.total_files_processed +
      ((processFiles mappings files st db).1.failed_files).length =
      st.total_files_processed + st.failed_files.length + files.length := by
  intro files
  induction files with
  | nil => intro st db; simp [processFiles]
  | cons p rest ih =>
    intro st db
    rcases p with ⟨fn, f⟩
    cases hs : (process_csv_file mappings fn f db).1.success with
    | true =>
      simp only [processFiles, process_single_file, hs, if_true]
      rw [ih _ _]
      simp
      omega
    | false =>
      simp only [processFiles, process_single_file, hs]
      rw [if_neg (by simp)]
      rw [ih _ _]
      simp
      omega

/-- Claim C5: the aggregate `success` flag is false exactly when zero CSV
files were discovered (archive-extraction failures and exceptions outside the
per-file loop are the non-modelled OS boundary); an individual file's failure
never flips it and never aborts the batch — every discovered file is
accounted as processed or failed.  In particular an archive holding one
well-formed CSV and one CSV with wrong headers (in either order) yields
`total_files_processed = 1`, `total_files_failed = 1`, and aggregate
stock/candlestick totals equal to the well-formed file's counts alone. -/
theorem C5_archive_batch_isolation :
    (∀ (mappings : List (Str × Mapping)) (zn : Str)
      (files : List (Str × CsvData)) (db : DB),
      ((process_zip_file mappings zn files db).1.success = false ↔ files = [])) ∧
    (∀ (mappings : List (Str × Mapping)) (zn : Str)
      (files : List (Str × CsvData)) (db : DB), files ≠ [] →
      (process_zip_file mappings zn files db).1.total_files_processed +
        ((process_zip_file mappings zn files db).1.failed_files).length =
        files.length) ∧
    (∀ (mappings : List (Str × Mapping)) (zn fn1 : Str) (f1 : CsvData)
      (fn2 : Str) (f2 : CsvData) (db : DB) (d : PyDate) (ex : Str)
      (cols : Mapping),
      (process_csv_file mappings fn1 f1 db).1.success = true →
      parse_filename (mappings.map Prod.fst) fn2 = .ok (d, ex) →
      lookupMapping mappings ex = some cols → cols ≠ [] →
      missingHeaders cols f2.headers ≠ [] →
      ((process_zip_file mappings zn [(fn1, f1), (fn2, f2)] db).1.total_files_processed = 1 ∧
       (process_zip_file mappings zn [(fn1, f1), (fn2, f2)] db).1.total_files_failed = some 1 ∧
       (process_zip_file mappings zn [(fn1, f1), (fn2, f2)] db).1.total_stocks =
         (process_csv_file mappings fn1 f1 db).1.stocks_processed ∧
       (process_zip_file mappings zn [(fn1, f1), (fn2, f2)] db).1.total_candlesticks =
         (process_csv_file mappings fn1 f1 db).1.candlesticks_processed) ∧
      ((process_zip_file mappings zn [(fn2, f2), (fn1, f1)] db).1.total_files_processed = 1 ∧
       (process_zip_file mappings zn [(fn2, f2), (fn1, f1)] db).1.total_files_failed = some 1 ∧
       (process_zip_file mappings zn [(fn2, f2), (fn1, f1)] db).1.total_stocks =
         (process_csv_file mappings fn1 f1 db).1.stocks_processed ∧
       (process_zip_file mappings zn [(fn2, f2), (fn1, f1)] db).1.total_candlesticks =
         (process_csv_file mappings fn1 f1 db).1.candlesticks_processed)) := by
  refine ⟨?_, ?_, ?_⟩
  · intro mappings zn files db
    cases files with
    | nil => simp [process_zip_file]
    | cons p rest => simp [process_zip_file]
  · intro mappings zn files db hne
    rcases files with _ | ⟨p, rest⟩
    · exact absurd rfl hne
    · simp only [process_zip_file]
      rw [if_neg hne]
      dsimp only
      rw [processFiles_account mappings _ _ _]
      simp
  · intro mappings zn fn1 f1 fn2 f2 db d ex cols hs1 hparse hmap hcne hmiss
    rcases hcols : cols with _ | ⟨c0, crest⟩
    · exact absurd hcols hcne
    · subst hcols
      have hbad : ∀ db' : DB, process_csv_file mappings fn2 f2 db' =
          ({ success := false, stocks_processed := 0,
             candlesticks_processed := 0, errors := [], warnings := [],
             date := none, exchange := none,
             error := some (missingColsMsg ex
               (missingHeaders (c0 :: crest) f2.headers)) }, db') :=
        fun db' => process_csv_file_header_fail mappings fn2 f2 db' d ex c0
          crest hparse hmap hmiss
      constructor
      · simp only [process_zip_file]
        rw [if_neg (by simp)]
        dsimp only
        simp [processFiles, process_single_file, hbad, hs1]
      · simp only [process_zip_file]
        rw [if_neg (by simp)]
        dsimp only
        simp [processFiles, process_single_file, hbad, hs1]

/-- Witness for C5: a concrete two-member archive (one good BSE file, one
file with wrong headers) and the empty archive. -/
theorem C5_archive_batch_isolation_witness :
    (process_zip_file EXCHANGE_MAPPINGS (str (r"batch.zip"))
      [(str (r"20250101_BSE.csv"), ⟨bseHeaders, [bseRow1]⟩),
       (str (r"20250102_BSE.csv"), ⟨[str (r"WRONG")], [bseRow1]⟩)]
      emptyDB).1.success = true ∧
    (process_zip_file EXCHANGE_MAPPINGS (str (r"batch.zip"))
      [(str (r"20250101_BSE.csv"), ⟨bseHeaders, [bseRow1]⟩),
       (str (r"20250102_BSE.csv"), ⟨[str (r"WRONG")], [bseRow1]⟩)]
      emptyDB).1.total_files_processed = 1 ∧
    (process_zip_file EXCHANGE_MAPPINGS (str (r"batch.zip"))
      [(str (r"20250101_BSE.csv"), ⟨bseHeaders, [bseRow1]⟩),
       (str (r"20250102_BSE.csv"), ⟨[str (r"WRONG")], [bseRow1]⟩)]
      emptyDB).1.total_files_failed = some 1 ∧
    (process_zip_file EXCHANGE_MAPPINGS (str (r"batch.zip"))
      [(str (r"20250101_BSE.csv"), ⟨bseHeaders, [bseRow1]⟩),
       (str (r"20250102_BSE.csv"), ⟨[str (r"WRONG")], [bseRow1]⟩)]
      emptyDB).1.total_stocks = 1 ∧
    (process_zip_file EXCHANGE_MAPPINGS (str (r"batch.zip"))
      [(str (r"20250101_BSE.csv"), ⟨bseHeaders, [bseRow1]⟩),
       (str (r"20250102_BSE.csv"), ⟨[str (r"WRONG")], [bseRow1]⟩)]
      emptyDB).1.total_candlesticks = 1 ∧
    (process_zip_file EXCHANGE_MAPPINGS (str (r"batch.zip")) []
      emptyDB).1.success = false := by
  have h3 := C5_archive_batch_isolation.2.2 EXCHANGE_MAPPINGS
    (str (r"batch.zip")) (str (r"20250101_BSE.csv")) ⟨bseHeaders, [bseRow1]⟩
    (str (r"20250102_BSE.csv")) ⟨[str (r"WRONG")], [bseRow1]⟩ emptyDB
    ⟨2025, 1, 2⟩ (str (r"BSE")) bseMapping
    (by decide) (by decide) (by decide) (by decide) (by decide)
  have h1 := C5_archive_batch_isolation.1 EXCHANGE_MAPPINGS
    (str (r"batch.zip"))
    [(str (r"20250101_BSE.csv"), ⟨bseHeaders, [bseRow1]⟩),
     (str (r"20250102_BSE.csv"), ⟨[str (r"WRONG")], [bseRow1]⟩)] emptyDB
  have hemp := (C5_archive_batch_isolation.1 EXCHANGE_MAPPINGS
    (str (r"batch.zip")) [] emptyDB).mpr rfl
  refine ⟨?_, h3.1.1, h3.1.2.1, ?_, ?_, hemp⟩
  · cases hsucc : (process_zip_file EXCHANGE_MAPPINGS (str (r"batch.zip"))
      [(str (r"20250101_BSE.csv"), ⟨bseHeaders, [bseRow1]⟩),
       (str (r"20250102_BSE.csv"), ⟨[str (r"WRONG")], [bseRow1]⟩)]
      emptyDB).1.success with
    | true => rfl
    | false => exact absurd (h1.mp hsucc) (by simp)
  · rw [h3.1.2.2.1]; decide
  · rw [h3.1.2.2.2]; decide
